import Mathlib

/-!
Verification of the falling-sand cellular automaton (`src/main.rs`).

The core simulation state and its operations are embedded shallowly:

* `Strain`, `Particle`, `FallingSand` mirror the Rust structs of the same
  names; the rendering / input fields of the Rust `FallingSand` struct are
  irrelevant to the physics and are omitted.
* Rust's `Vec<Particle>` indexing panics when the computed buffer index is
  out of range, so `get` / `set` return `Option` and every composite
  operation is `Option`-threaded: a `none` result models a panic.
* Machine integers: the grid fits in memory, so `x + grid_width * y` never
  wraps for in-range `x`, `y` and is modelled as exact `Nat` arithmetic.
  The `(x as isize + dx) as usize` casts in the neighbour scans do wrap for
  negative values; `usizeWrap` models that cast exactly (mod `2^64`).
* `lifetime: i16` is modelled as `Int` (all values used fit comfortably).
* Randomness (`rand::random`, `thread_rng().gen_range`): every draw is
  taken from an explicit stream of raw numbers `Rng`; `gen_range lo hi`
  maps a raw draw `d` to `lo + d % (hi - lo)`, `random::<bool>()` maps it
  to `d % 2 == 0`.  The claims under verification concern the branch
  structure of the code, not distributions, so any surjective-per-draw
  model is adequate; draws happen exactly where the source draws.
-/

/-- Explicit stream of raw random draws, standing for the thread-local
generator the Rust code consumes. An exhausted stream yields 0. -/
structure Rng where
  draws : List Nat
deriving DecidableEq, Repr

/-- Take one raw draw from the stream. -/
def Rng.next (r : Rng) : Nat × Rng :=
  match r.draws with
  | [] => (0, ⟨[]⟩)
  | d :: ds => (d, ⟨ds⟩)

/-- `thread_rng().gen_range(lo, hi)`: a uniform integer in `[lo, hi)`. -/
def Rng.genRange (r : Rng) (lo hi : Nat) : Nat × Rng :=
  let (d, r') := r.next
  (lo + d % (hi - lo), r')

/-- `rand::random::<bool>()`. -/
def Rng.randomBool (r : Rng) : Bool × Rng :=
  let (d, r') := r.next
  (d % 2 == 0, r')

/-- The `(i as usize)` cast applied to a possibly negative `isize`. -/
def usizeWrap (i : Int) : Nat := (i % (2 ^ 64 : Int)).toNat

/-- `enum Strain` from src/main.rs. -/
inductive Strain where
  | Empty
  | Sand
  | Water
  | Wood
  | Fire
  | Glass
  | MoltenGlass
deriving DecidableEq, Repr

/-- `Strain::density` (src/main.rs:126). The wildcard arm covers `Empty`. -/
def Strain.density : Strain → Nat
  | .Sand => 1600
  | .Water => 1000
  | .Wood => 9999
  | .Fire => 600
  | .Glass => 9999
  | .MoltenGlass => 1600
  | .Empty => 1000

/-- `Strain::base_lifetime` (src/main.rs:152): how long it survives in
ticks; draws from the generator only in the `Fire` / `MoltenGlass` arms. -/
def Strain.base_lifetime : Strain → Rng → Int × Rng
  | .Fire, r => let (n, r') := r.genRange 60 100; ((n : Int), r')
  | .MoltenGlass, r => let (n, r') := r.genRange 240 480; ((n : Int), r')
  | _, r => (-1, r)

/-- `Strain::death_strain` (src/main.rs:163): what it turns into when it
dies. -/
def Strain.death_strain : Strain → Strain
  | .MoltenGlass => .Glass
  | _ => .Empty

/-- `Strain::ignite_chance` (src/main.rs:171), out of 100. -/
def Strain.ignite_chance : Strain → Nat
  | .Wood => 5
  | _ => 0

/-- `Strain::reactable_strains` (src/main.rs:178):
`(trigger, chance, result)` entries. -/
def Strain.reactable_strains : Strain → List (Strain × Nat × Strain)
  | .Sand => [(.Fire, 1, .MoltenGlass)]
  | .MoltenGlass => [(.Water, 50, .Glass)]
  | .Glass => [(.Fire, 10, .MoltenGlass)]
  | _ => []

/-- `struct Particle` (src/main.rs:85). -/
structure Particle where
  strain : Strain
  update : Bool
  lifetime : Int
deriving DecidableEq, Repr

/-- `impl Default for Particle` (src/main.rs:91). -/
def Particle.default : Particle :=
  { strain := .Empty, update := false, lifetime := -1 }

/-- The physics-relevant fields of `struct FallingSand` (src/main.rs:189). -/
structure FallingSand where
  grid : List Particle
  grid_width : Nat
  grid_height : Nat
  update : Bool
  particles_updated : Nat
deriving DecidableEq, Repr

/-- `four_adj_particles` as initialised in `FallingSand::new`
(src/main.rs:224): left, right, up, down. -/
def four_adj_particles : List (Int × Int) :=
  [(-1, 0), (1, 0), (0, -1), (0, 1)]

/-- `FallingSand::index` (src/main.rs:248). -/
def FallingSand.index (s : FallingSand) (x y : Nat) : Nat :=
  x + s.grid_width * y

/-- `FallingSand::get` (src/main.rs:252); `none` is the index panic. -/
def FallingSand.get (s : FallingSand) (x y : Nat) : Option Particle :=
  s.grid[s.index x y]?

/-- `FallingSand::set` (src/main.rs:258); `none` is the index panic. -/
def FallingSand.set (s : FallingSand) (x y : Nat) (p : Particle) :
    Option FallingSand :=
  if s.index x y < s.grid.length then
    some { s with grid := s.grid.set (s.index x y) p }
  else none

/-- `FallingSand::is_particle_empty` (src/main.rs:270). -/
def FallingSand.is_particle_empty (s : FallingSand) (x y : Nat) :
    Option Bool :=
  match s.get x y with
  | none => none
  | some p => some (p.strain == .Empty)

/-- `FallingSand::swap` (src/main.rs:274): read both, write both. -/
def FallingSand.swap (s : FallingSand) (x1 y1 x2 y2 : Nat) :
    Option FallingSand :=
  match s.get x1 y1, s.get x2 y2 with
  | some cur, some other =>
    match s.set x1 y1 other with
    | none => none
    | some s1 => s1.set x2 y2 cur
  | _, _ => none

/-- `FallingSand::apply_gravity` (src/main.rs:282). Note the source's
`(y as isize + val) <= 0` bound: a target row of 0 already fails. The
`is_particle_empty` disjunct re-reads the target cell, so it is expressed
on the already-fetched particle. -/
def FallingSand.apply_gravity (s : FallingSand) (x y : Nat) (val : Int) :
    Option (Bool × FallingSand) :=
  if (y : Int) + val ≤ 0 ∨ (y : Int) + val > (s.grid_height : Int) - 1 then
    some (false, s)
  else
    match s.get x y, s.get x ((y : Int) + val).toNat with
    | some pcur, some pother =>
      if pcur.strain.density > pother.strain.density ∨
          pother.strain = .Empty then
        match s.swap x y x ((y : Int) + val).toNat with
        | none => none
        | some s' => some (true, s')
      else some (false, s)
    | _, _ => none

/-- The `else if` arm of `FallingSand::apply_tumble` (src/main.rs:310):
try to move down right. -/
def FallingSand.tumbleRight (s : FallingSand) (x y : Nat) :
    Option (Int × Int) :=
  if y + 1 < s.grid_height ∧ x + 1 < s.grid_width then
    match s.is_particle_empty (x + 1) (y + 1) with
    | none => none
    | some e => if e then some (1, 1) else some (0, 0)
  else some (0, 0)

/-- `FallingSand::apply_tumble` (src/main.rs:300): down-left first, then
down-right, then swap along the chosen translation. -/
def FallingSand.apply_tumble (s : FallingSand) (x y : Nat) :
    Option (Bool × FallingSand) :=
  match (if y + 1 < s.grid_height ∧ 0 < x then
          match s.is_particle_empty (x - 1) (y + 1) with
          | none => none
          | some e =>
            if e then some ((-1 : Int), (1 : Int)) else s.tumbleRight x y
         else s.tumbleRight x y) with
  | none => none
  | some translate =>
    if translate.1 ≠ 0 ∨ translate.2 ≠ 0 then
      match s.swap x y ((x : Int) + translate.1).toNat
          ((y : Int) + translate.2).toNat with
      | none => none
      | some s' => some (true, s')
    else some (false, s)

/-- `FallingSand::apply_spread` (src/main.rs:331): one random direction,
then the source's guard `x > 0 && x + dir < width && target empty`. -/
def FallingSand.apply_spread (s : FallingSand) (x y : Nat) (rng : Rng) :
    Option (Bool × FallingSand × Rng) :=
  let (b, rng1) := rng.randomBool
  let dir : Int := if b then -1 else 1
  match (if 0 < x ∧ (x : Int) + dir < (s.grid_width : Int) then
          match s.is_particle_empty ((x : Int) + dir).toNat y with
          | none => none
          | some e => if e then some dir else some 0
         else some (0 : Int)) with
  | none => none
  | some trans_x =>
    if trans_x ≠ 0 then
      match s.swap x y ((x : Int) + trans_x).toNat y with
      | none => none
      | some s' => some (true, s', rng1)
    else some (false, s, rng1)

/-- `FallingSand::spawn_particle` (src/main.rs:375): out of bounds is a
silent no-op. -/
def FallingSand.spawn_particle (s : FallingSand) (x y : Nat) (p : Particle) :
    Option FallingSand :=
  if x < s.grid_width ∧ y < s.grid_height then s.set x y p
  else some s

/-- The fresh-particle spawn performed by the mouse branch of
`FallingSand::update` (src/main.rs:533): the particle is built as
`Particle { strain, lifetime: strain.base_lifetime(), ..Default::default() }`,
so its `update` flag is the `Default` value `false`. -/
def FallingSand.spawnAt (s : FallingSand) (x y : Nat) (m : Strain)
    (rng : Rng) : Option (FallingSand × Rng) :=
  let (lt, rng') := m.base_lifetime rng
  match s.spawn_particle x y { strain := m, update := false, lifetime := lt }
  with
  | none => none
  | some s' => some (s', rng')

/-- Inner loop of the reaction attempt in `FallingSand::update`
(src/main.rs:574): scan the neighbour offsets for one reaction entry `r`;
a matching neighbour rolls `gen_range(0,100) <= chance`; success updates
the particle and breaks out of the neighbour loop only. -/
def FallingSand.reactNeighbours (s : FallingSand) (x y : Nat)
    (r : Strain × Nat × Strain) :
    Particle → Rng → List (Int × Int) → Option (Particle × Rng)
  | p, rng, [] => some (p, rng)
  | p, rng, v :: vs =>
    if usizeWrap ((x : Int) + v.1) < s.grid_width ∧
        usizeWrap ((y : Int) + v.2) < s.grid_height then
      match s.get (usizeWrap ((x : Int) + v.1)) (usizeWrap ((y : Int) + v.2))
      with
      | none => none
      | some other =>
        if other.strain = r.1 then
          let (d, rng1) := rng.genRange 0 100
          if d ≤ r.2.1 then
            let (lt, rng2) := r.2.2.base_lifetime rng1
            some ({ p with strain := r.2.2, lifetime := lt }, rng2)
          else s.reactNeighbours x y r p rng1 vs
        else s.reactNeighbours x y r p rng vs
    else s.reactNeighbours x y r p rng vs

/-- Outer loop of the reaction attempt (src/main.rs:572): iterate the
reaction table computed once from the particle's strain at loop entry;
a successful entry does not stop later entries. -/
def FallingSand.reactLoop (s : FallingSand) (x y : Nat) :
    Particle → Rng → List (Strain × Nat × Strain) → Option (Particle × Rng)
  | p, rng, [] => some (p, rng)
  | p, rng, r :: rs =>
    match s.reactNeighbours x y r p rng four_adj_particles with
    | none => none
    | some (p', rng') => s.reactLoop x y p' rng' rs

/-- The ignition scan of the `Fire` arm (src/main.rs:617): for each
neighbour offset, a non-Empty neighbour with positive ignite chance rolls
`gen_range(0,100) <= chance`; success rewrites that neighbour to `Fire`
(keeping its `update` flag) and breaks. -/
def FallingSand.igniteLoop (x y : Nat) :
    FallingSand → Rng → List (Int × Int) → Option (FallingSand × Rng)
  | s, rng, [] => some (s, rng)
  | s, rng, v :: vs =>
    if usizeWrap ((x : Int) + v.1) < s.grid_width ∧
        usizeWrap ((y : Int) + v.2) < s.grid_height then
      match s.get (usizeWrap ((x : Int) + v.1)) (usizeWrap ((y : Int) + v.2))
      with
      | none => none
      | some p =>
        if p.strain ≠ .Empty ∧ 0 < p.strain.ignite_chance then
          let (d, rng1) := rng.genRange 0 100
          if d ≤ p.strain.ignite_chance then
            let (lt, rng2) := Strain.Fire.base_lifetime rng1
            match s.set (usizeWrap ((x : Int) + v.1))
                (usizeWrap ((y : Int) + v.2))
                { p with strain := .Fire, lifetime := lt } with
            | none => none
            | some s' => some (s', rng2)
          else FallingSand.igniteLoop x y s rng1 vs
        else FallingSand.igniteLoop x y s rng vs
    else FallingSand.igniteLoop x y s rng vs

/-- The `match p.strain` behaviour dispatch of `FallingSand::update`
(src/main.rs:595). -/
def FallingSand.dispatch (x y : Nat) (st : Strain) (s : FallingSand)
    (rng : Rng) : Option (FallingSand × Rng) :=
  match st with
  | .Sand =>
    (match s.apply_gravity x y 1 with
     | none => none
     | some (b, s1) =>
       if b then some (s1, rng)
       else
         match s1.apply_tumble x y with
         | none => none
         | some (_, s2) => some (s2, rng))
  | .Water =>
    (match s.apply_gravity x y 1 with
     | none => none
     | some (b, s1) =>
       if b then some (s1, rng)
       else
         match s1.apply_tumble x y with
         | none => none
         | some (b2, s2) =>
           if b2 then some (s2, rng)
           else
             match s2.apply_spread x y rng with
             | none => none
             | some (_, s3, rng') => some (s3, rng'))
  | .Fire =>
    let (b0, rng0) := rng.randomBool
    (match (if b0 then
              match s.apply_gravity x y (-1) with
              | none => none
              | some (_, s') => some s'
            else some s) with
     | none => none
     | some s1 =>
       let (b1, rng2) := rng0.randomBool
       match (if b1 then
                match s1.apply_spread x y rng2 with
                | none => none
                | some (_, s', r') => some (s', r')
              else some (s1, rng2)) with
       | none => none
       | some (s2, rng3) =>
         FallingSand.igniteLoop x y s2 rng3 four_adj_particles)
  | .MoltenGlass =>
    (match s.apply_gravity x y 1 with
     | none => none
     | some (b, s1) =>
       if b then some (s1, rng)
       else
         let (b2, rng2) := rng.randomBool
         if b2 then
           match s1.apply_tumble x y with
           | none => none
           | some (bt, s2) =>
             if bt then some (s2, rng2)
             else
               match s2.apply_spread x y rng2 with
               | none => none
               | some (_, s3, rng3) => some (s3, rng3)
         else some (s1, rng2))
  | _ => some (s, rng)

/-- The start of the processing branch (src/main.rs:564-569): flip the
`update` flag, then decrement the lifetime when it is positive (the flip
does not change the lifetime, so the two statements fuse). -/
def processedParticle (p : Particle) : Particle :=
  if 0 < p.lifetime then
    { p with update := !p.update, lifetime := p.lifetime - 1 }
  else { p with update := !p.update }

/-- The per-cell body of the update loop (src/main.rs:552-658): the decay
branch has priority; otherwise a cell whose flag equals the global parity
and whose strain is non-Empty is processed: flag flip, lifetime decrement,
reaction attempt, write-back, behaviour dispatch, counter increment. -/
def FallingSand.stepCell (s : FallingSand) (rng : Rng) (x y : Nat) :
    Option (FallingSand × Rng) :=
  match s.get x y with
  | none => none
  | some p =>
    if p.lifetime = 0 then
      match (p.strain.death_strain).base_lifetime rng with
      | (lt, rng') =>
        match s.set x y
            { p with strain := p.strain.death_strain, lifetime := lt } with
        | none => none
        | some s' => some (s', rng')
    else if p.update = s.update ∧ p.strain ≠ .Empty then
      match s.reactLoop x y (processedParticle p) rng
          (processedParticle p).strain.reactable_strains with
      | none => none
      | some (p3, rng1) =>
        match s.set x y p3 with
        | none => none
        | some s1 =>
          match FallingSand.dispatch x y p3.strain s1 rng1 with
          | none => none
          | some (s2, rng2) =>
            some ({ s2 with particles_updated := s2.particles_updated + 1 },
              rng2)
    else some (s, rng)

/-- One row of the scan: `for x in 0..self.grid_width`. -/
def FallingSand.scanRow (y : Nat) :
    FallingSand → Rng → List Nat → Option (FallingSand × Rng)
  | s, rng, [] => some (s, rng)
  | s, rng, x :: xs =>
    match s.stepCell rng x y with
    | none => none
    | some (s', rng') => FallingSand.scanRow y s' rng' xs

/-- All rows of the scan: `for y in (0..self.grid_height).rev()`. -/
def FallingSand.scanRows :
    FallingSand → Rng → List Nat → Option (FallingSand × Rng)
  | s, rng, [] => some (s, rng)
  | s, rng, y :: ys =>
    match FallingSand.scanRow y s rng (List.range s.grid_width) with
    | none => none
    | some (s', rng') => FallingSand.scanRows s' rng' ys

/-- One simulation tick: the grid-scan portion of `FallingSand::update`
(src/main.rs:546-662): reset the counter, scan rows bottom to top and
cells left to right, then flip the global parity flag once. -/
def FallingSand.tick (s : FallingSand) (rng : Rng) :
    Option (FallingSand × Rng) :=
  let s0 : FallingSand := { s with particles_updated := 0 }
  match FallingSand.scanRows s0 rng (List.range s0.grid_height).reverse with
  | none => none
  | some (s1, rng1) => some ({ s1 with update := !s1.update }, rng1)

/-- Iterated ticks. -/
def FallingSand.tickN : Nat → FallingSand → Rng → Option (FallingSand × Rng)
  | 0, s, rng => some (s, rng)
  | n + 1, s, rng =>
    match s.tick rng with
    | none => none
    | some (s', rng') => FallingSand.tickN n s' rng'

/-! ### Specification-level notions -/

/-- Well-formed simulation state: the buffer holds exactly
`grid_width * grid_height` particles, and the dimensions fit in a `usize`. -/
def FallingSand.WF (s : FallingSand) : Prop :=
  s.grid.length = s.grid_width * s.grid_height ∧
  s.grid_width < 2 ^ 64 ∧ s.grid_height < 2 ^ 64

/-- The multiset of all particles held by the grid buffer. -/
def FallingSand.pmset (s : FallingSand) : Multiset Particle :=
  (s.grid : Multiset Particle)

/-- The multiset of all materials held by the grid buffer (`Empty` cells
included, so the grid size is accounted for). -/
def FallingSand.mats (s : FallingSand) : Multiset Strain :=
  s.pmset.map Particle.strain

/-- Number of cells whose `update` flag equals the given parity. -/
def eligCount (par : Bool) (s : FallingSand) : Nat :=
  Multiset.countP (fun p => p.update = par) s.pmset

/-- The explicitly specified material transformations: lifetime decay to
the death strain, a reaction-table result, and ignition of a non-Empty
ignitable strain to Fire. -/
inductive StrainTrans : Strain → Strain → Prop where
  | decay (a : Strain) : StrainTrans a a.death_strain
  | react (a b t : Strain) (c : Nat)
      (h : (t, c, b) ∈ a.reactable_strains) : StrainTrans a b
  | ignite (a : Strain) (h1 : a ≠ .Empty) (h2 : 0 < a.ignite_chance) :
      StrainTrans a .Fire

/-- Replace one occurrence of a material by an allowed transformation. -/
def matsStep (u v : Multiset Strain) : Prop :=
  ∃ M a b, StrainTrans a b ∧ u = a ::ₘ M ∧ v = b ::ₘ M

/-- The material multisets reachable by a sequence of allowed
transformations; everything else is preserved. -/
def matsEvolve : Multiset Strain → Multiset Strain → Prop :=
  Relation.ReflTransGen matsStep

/-- Frame facts carried through every per-cell step of one tick, for the
parity the tick started with: dimensions, buffer length and parity flag
are untouched; the processed-cell counter grows exactly as the number of
parity-matching flags shrinks; materials change only by allowed
transformations. -/
def StepFrame (par : Bool) (s s' : FallingSand) : Prop :=
  s'.grid_width = s.grid_width ∧ s'.grid_height = s.grid_height ∧
  s'.grid.length = s.grid.length ∧ s'.update = s.update ∧
  s'.particles_updated + eligCount par s' =
    s.particles_updated + eligCount par s ∧
  matsEvolve s.mats s'.mats

/-- First in-bounds neighbour (same wrap-around bound check as the source)
whose strain equals the trigger. Helper for `reactionClaim`. -/
def claimFirstMatch (s : FallingSand) (x y : Nat) (t : Strain) :
    List (Int × Int) → Option Particle
  | [] => none
  | v :: vs =>
    if usizeWrap ((x : Int) + v.1) < s.grid_width ∧
        usizeWrap ((y : Int) + v.2) < s.grid_height then
      match s.get (usizeWrap ((x : Int) + v.1)) (usizeWrap ((y : Int) + v.2))
      with
      | none => none
      | some other =>
        if other.strain = t then some other else claimFirstMatch s x y t vs
    else claimFirstMatch s x y t vs

/-- Modelled from the words of claim C3 (spec §4.2 step 5), for comparison
with the source's `reactLoop`: in table order, on the first neighbour whose
material equals the entry's trigger, draw once, convert iff the draw is
strictly less than the chance, and stop scanning further neighbours and
further entries (at most one draw per cell). -/
def reactionClaim (s : FallingSand) (x y : Nat) :
    Particle → Rng → List (Strain × Nat × Strain) → Option (Particle × Rng)
  | p, rng, [] => some (p, rng)
  | p, rng, r :: rs =>
    match claimFirstMatch s x y r.1 four_adj_particles with
    | none => reactionClaim s x y p rng rs
    | some _ =>
      let (d, rng1) := rng.genRange 0 100
      if d < r.2.1 then
        let (lt, rng2) := r.2.2.base_lifetime rng1
        some ({ p with strain := r.2.2, lifetime := lt }, rng2)
      else some (p, rng1)

/-! ### Concrete states used by counterexamples and witnesses -/

/-- Particle literal shorthand. -/
def mkP (st : Strain) (u : Bool) (lt : Int) : Particle :=
  { strain := st, update := u, lifetime := lt }

/-- 1×2 column: Empty above, Fire below (used against C1: rising into the
in-bounds Empty row 0 fails because of the source's `<= 0` bound). -/
def gravityTopState : FallingSand :=
  { grid := [Particle.default, mkP .Fire false 5], grid_width := 1,
    grid_height := 2, update := false, particles_updated := 0 }

/-- 1×1 grid holding a Fire particle whose lifetime has reached 0 and whose
flag matches the parity (used against C2's eligibility iff). -/
def deadFireState : FallingSand :=
  { grid := [mkP .Fire false 0], grid_width := 1, grid_height := 1,
    update := false, particles_updated := 0 }

/-- 2×1 row: Sand at (0,0) with a Fire trigger at (1,0) (used for C3). -/
def sandFireState : FallingSand :=
  { grid := [mkP .Sand false (-1), mkP .Fire false 9], grid_width := 2,
    grid_height := 1, update := false, particles_updated := 0 }

/-- 3×1 row: Fire, Sand, Fire (used for C3: a failed roll on the left
neighbour is followed by a second roll on the right one). -/
def fireSandFireState : FallingSand :=
  { grid := [mkP .Fire false 9, mkP .Sand false (-1), mkP .Fire false 9],
    grid_width := 3, grid_height := 1, update := false,
    particles_updated := 0 }

/-- 2×1 row: Water at x = 0 next to an Empty cell (used against C4: the
source's `x > 0` guard blocks spreading right from the left edge). -/
def spreadEdgeState : FallingSand :=
  { grid := [mkP .Water false (-1), Particle.default], grid_width := 2,
    grid_height := 1, update := false, particles_updated := 0 }

/-- 1×1 grid holding one Sand particle (witness state). -/
def oneSandState : FallingSand :=
  { grid := [mkP .Sand false (-1)], grid_width := 1, grid_height := 1,
    update := false, particles_updated := 0 }

/-- 1×4 column, top to bottom: Sand, Sand, Water, Wood. During one tick the
water is density-swapped upward twice (used against C6). -/
def doubleMoveState : FallingSand :=
  { grid := [mkP .Sand false (-1), mkP .Sand false (-1),
      mkP .Water false (-5), mkP .Wood false (-1)],
    grid_width := 1, grid_height := 4, update := false,
    particles_updated := 0 }

/-- The grid `doubleMoveState` reaches after one tick on an empty draw
stream: the water ended two rows higher. -/
def doubleMoveAfter : FallingSand :=
  { grid := [mkP .Water true (-5), mkP .Sand true (-1),
      mkP .Sand true (-1), mkP .Wood true (-1)],
    grid_width := 1, grid_height := 4, update := true,
    particles_updated := 4 }

/-- 1×2 column of two settled Sand particles, with every flag equal to the
parity and an arbitrary counter (used for C7). -/
def settledSand (b : Bool) (c : Nat) : FallingSand :=
  { grid := [mkP .Sand b (-1), mkP .Sand b (-1)], grid_width := 1,
    grid_height := 2, update := b, particles_updated := c }

/-- 1×1 grid holding a Fire particle with lifetime 0 whose flag does NOT
match the parity (witness state for C10). -/
def deadFireFlaggedState : FallingSand :=
  { grid := [mkP .Fire true 0], grid_width := 1, grid_height := 1,
    update := false, particles_updated := 7 }

/-- The state `deadFireState` reaches after one tick: the decay branch ran
(Fire became Empty) but the cell's flag was never flipped and the counter
stayed 0, although the flag matched the parity and the strain was
non-Empty. -/
def deadFireAfter : FallingSand :=
  { grid := [mkP .Empty false (-1)], grid_width := 1, grid_height := 1,
    update := true, particles_updated := 0 }

/-- The state `spreadEdgeState` reaches after spawning Sand at (1,0): the
fresh particle's flag is the `Default` value `false`, not the opposite of
the parity. -/
def spawnEdgeAfter : FallingSand :=
  { grid := [mkP .Water false (-1), mkP .Sand false (-1)], grid_width := 2,
    grid_height := 1, update := false, particles_updated := 0 }

/-- The state `oneSandState` reaches after one tick (witness for the
conservation claim). -/
def oneSandAfter : FallingSand :=
  { grid := [mkP .Sand true (-1)], grid_width := 1, grid_height := 1,
    update := true, particles_updated := 1 }

/-- 1×1 grid holding a Sand particle whose flag does not match the parity:
the scan skips it (witness state for the skip conjuncts). -/
def skipSandState : FallingSand :=
  { grid := [mkP .Sand true (-1)], grid_width := 1, grid_height := 1,
    update := false, particles_updated := 0 }

/-- 1×2 column: Sand above an Empty cell (witness state for a successful
gravity fall). -/
def oneSandFallState : FallingSand :=
  { grid := [mkP .Sand false (-1), Particle.default], grid_width := 1,
    grid_height := 2, update := false, particles_updated := 0 }

/-! ### Basic lemmas about the grid primitives -/

theorem listGetPerm {α : Type} :
    ∀ (l : List α) (i : Nat) (h : i < l.length),
      l.Perm (l[i] :: l.eraseIdx i)
  | _ :: _, 0, _ => by simp [List.eraseIdx]
  | a :: t, i + 1, h => by
    have ih := listGetPerm t i (by simpa using h)
    simpa [List.eraseIdx] using (ih.cons a).trans (List.Perm.swap _ a _)

theorem listSetPerm {α : Type} :
    ∀ (l : List α) (i : Nat) (a : α), i < l.length →
      (l.set i a).Perm (a :: l.eraseIdx i)
  | _ :: _, 0, _, _ => by simp [List.eraseIdx]
  | b :: t, i + 1, a, h => by
    have ih := listSetPerm t i a (by simpa using h)
    simpa [List.eraseIdx] using (ih.cons b).trans (List.Perm.swap a b _)

theorem get_eq_some_iff {s : FallingSand} {x y : Nat} {p : Particle} :
    s.get x y = some p ↔
      ∃ h : s.index x y < s.grid.length, s.grid[s.index x y] = p := by
  unfold FallingSand.get
  exact List.getElem?_eq_some

theorem get_lt_of_some {s : FallingSand} {x y : Nat} {p : Particle}
    (h : s.get x y = some p) : s.index x y < s.grid.length := by
  obtain ⟨h1, -⟩ := get_eq_some_iff.mp h
  exact h1

theorem get_of_lt {s : FallingSand} {x y : Nat}
    (h : s.index x y < s.grid.length) :
    s.get x y = some (s.grid[s.index x y]) := by
  unfold FallingSand.get
  exact List.getElem?_eq_getElem h

theorem set_of_lt {s : FallingSand} {x y : Nat} (p : Particle)
    (h : s.index x y < s.grid.length) :
    s.set x y p = some { s with grid := s.grid.set (s.index x y) p } := by
  unfold FallingSand.set
  rw [if_pos h]

theorem set_eq_some {s s' : FallingSand} {x y : Nat} {p : Particle}
    (h : s.set x y p = some s') :
    s.index x y < s.grid.length ∧
      s' = { s with grid := s.grid.set (s.index x y) p } := by
  unfold FallingSand.set at h
  by_cases hlt : s.index x y < s.grid.length
  · rw [if_pos hlt] at h
    exact ⟨hlt, (Option.some.inj h).symm⟩
  · rw [if_neg hlt] at h
    cases h

theorem index_lt {s : FallingSand} (hWF : s.WF) {x y : Nat}
    (hx : x < s.grid_width) (hy : y < s.grid_height) :
    s.index x y < s.grid.length := by
  obtain ⟨hlen, -, -⟩ := hWF
  rw [hlen]
  unfold FallingSand.index
  calc x + s.grid_width * y < s.grid_width + s.grid_width * y := by omega
    _ = s.grid_width * (y + 1) := by ring
    _ ≤ s.grid_width * s.grid_height := Nat.mul_le_mul (le_refl _) hy

theorem index_inj {s : FallingSand} {x y x' y' : Nat}
    (hx : x < s.grid_width) (hx' : x' < s.grid_width)
    (h : s.index x y = s.index x' y') : x = x' ∧ y = y' := by
  unfold FallingSand.index at h
  have hw : 0 < s.grid_width := lt_of_le_of_lt (Nat.zero_le x) hx
  have e1 : (x + s.grid_width * y) % s.grid_width = x := by
    rw [Nat.add_mul_mod_self_left, Nat.mod_eq_of_lt hx]
  have e1' : (x' + s.grid_width * y') % s.grid_width = x' := by
    rw [Nat.add_mul_mod_self_left, Nat.mod_eq_of_lt hx']
  have e2 : (x + s.grid_width * y) / s.grid_width = y := by
    rw [Nat.add_mul_div_left _ _ hw, Nat.div_eq_of_lt hx, Nat.zero_add]
  have e2' : (x' + s.grid_width * y') / s.grid_width = y' := by
    rw [Nat.add_mul_div_left _ _ hw, Nat.div_eq_of_lt hx', Nat.zero_add]
  constructor
  · rw [← e1, ← e1', h]
  · rw [← e2, ← e2', h]

theorem pmset_set {s s' : FallingSand} {x y : Nat} {p q : Particle}
    (hset : s.set x y p = some s') (hget : s.get x y = some q) :
    ∃ M : Multiset Particle, s.pmset = q ::ₘ M ∧ s'.pmset = p ::ₘ M ∧
      s'.grid = s.grid.set (s.index x y) p ∧
      s'.grid.length = s.grid.length ∧ s'.grid_width = s.grid_width ∧
      s'.grid_height = s.grid_height ∧ s'.update = s.update ∧
      s'.particles_updated = s.particles_updated := by
  obtain ⟨hlt, rfl⟩ := set_eq_some hset
  obtain ⟨h2, hq⟩ := get_eq_some_iff.mp hget
  refine ⟨(s.grid.eraseIdx (s.index x y) : List Particle), ?_, ?_, rfl,
    by simp [List.length_set], rfl, rfl, rfl, rfl⟩
  · show (s.grid : Multiset Particle) = _
    rw [Multiset.cons_coe, Multiset.coe_eq_coe, ← hq]
    exact listGetPerm s.grid (s.index x y) hlt
  · show (s.grid.set (s.index x y) p : Multiset Particle) = _
    rw [Multiset.cons_coe, Multiset.coe_eq_coe]
    exact listSetPerm s.grid (s.index x y) p hlt

theorem set_get {s s' : FallingSand} {x y : Nat} {p : Particle}
    (hset : s.set x y p = some s') : s'.get x y = some p := by
  obtain ⟨hlt, rfl⟩ := set_eq_some hset
  unfold FallingSand.get FallingSand.index
  show (s.grid.set (s.index x y) p)[x + s.grid_width * y]? = some p
  rw [List.getElem?_set]
  show (if s.index x y = s.index x y then _ else _) = _
  rw [if_pos rfl, if_pos hlt]

theorem set_get_frame {s s' : FallingSand} {x y : Nat} {p : Particle}
    (hset : s.set x y p = some s') {x3 y3 : Nat}
    (hne : s.index x3 y3 ≠ s.index x y) : s'.get x3 y3 = s.get x3 y3 := by
  obtain ⟨hlt, rfl⟩ := set_eq_some hset
  unfold FallingSand.get FallingSand.index
  show (s.grid.set (s.index x y) p)[x3 + s.grid_width * y3]? =
    s.grid[x3 + s.grid_width * y3]?
  exact List.getElem?_set_ne fun h => hne (h.symm)

theorem stepFrame_refl (par : Bool) (s : FallingSand) : StepFrame par s s :=
  ⟨rfl, rfl, rfl, rfl, rfl, Relation.ReflTransGen.refl⟩

theorem stepFrame_trans {par : Bool} {s1 s2 s3 : FallingSand} :
    StepFrame par s1 s2 → StepFrame par s2 s3 → StepFrame par s1 s3 := by
  rintro ⟨a1, b1, c1, d1, e1, f1⟩ ⟨a2, b2, c2, d2, e2, f2⟩
  exact ⟨a2.trans a1, b2.trans b1, c2.trans c1, d2.trans d1, by omega,
    f1.trans f2⟩

theorem stepFrame_of_pmset {par : Bool} {s s' : FallingSand}
    (hp : s'.pmset = s.pmset) (hw : s'.grid_width = s.grid_width)
    (hh : s'.grid_height = s.grid_height) (hu : s'.update = s.update)
    (hc : s'.particles_updated = s.particles_updated) : StepFrame par s s' := by
  refine ⟨hw, hh, ?_, hu, ?_, ?_⟩
  · have hcard := congrArg Multiset.card hp
    simpa [FallingSand.pmset] using hcard
  · unfold eligCount
    rw [hp, hc]
  · unfold FallingSand.mats
    rw [hp]
    exact Relation.ReflTransGen.refl

theorem swap_eq {s s' : FallingSand} {x1 y1 x2 y2 : Nat}
    (h : s.swap x1 y1 x2 y2 = some s') :
    ∃ cur other, s.get x1 y1 = some cur ∧ s.get x2 y2 = some other ∧
      s'.grid =
        (s.grid.set (s.index x1 y1) other).set (s.index x2 y2) cur ∧
      s'.grid_width = s.grid_width ∧ s'.grid_height = s.grid_height ∧
      s'.update = s.update ∧ s'.particles_updated = s.particles_updated ∧
      s'.grid.length = s.grid.length := by
  unfold FallingSand.swap at h
  cases hg1 : s.get x1 y1 with
  | none => rw [hg1] at h; cases hg2 : s.get x2 y2 <;> rw [hg2] at h <;>
      exact absurd h (by simp)
  | some cur =>
    cases hg2 : s.get x2 y2 with
    | none => rw [hg1, hg2] at h; exact absurd h (by simp)
    | some other =>
      rw [hg1, hg2] at h
      simp only at h
      cases hs1 : s.set x1 y1 other with
      | none => rw [hs1] at h; exact absurd h (by simp)
      | some s1 =>
        rw [hs1] at h
        obtain ⟨hlt1, rfl⟩ := set_eq_some hs1
        obtain ⟨hlt2, rfl⟩ := set_eq_some h
        refine ⟨cur, other, rfl, rfl, ?_, rfl, rfl, rfl, rfl, by
          simp [List.length_set]⟩
        show (s.grid.set (s.index x1 y1) other).set
          (x2 + s.grid_width * y2) cur = _
        rfl

theorem swap_pmset {s s' : FallingSand} {x1 y1 x2 y2 : Nat}
    (h : s.swap x1 y1 x2 y2 = some s') :
    s'.pmset = s.pmset ∧ s'.grid_width = s.grid_width ∧
      s'.grid_height = s.grid_height ∧ s'.update = s.update ∧
      s'.particles_updated = s.particles_updated ∧
      s'.grid.length = s.grid.length := by
  obtain ⟨cur, other, hg1, hg2, hgrid, hw, hh, hu, hc, hlen⟩ := swap_eq h
  obtain ⟨i1lt, hq1⟩ := get_eq_some_iff.mp hg1
  obtain ⟨i2lt, hq2⟩ := get_eq_some_iff.mp hg2
  refine ⟨?_, hw, hh, hu, hc, hlen⟩
  have hAlen : (s.grid.set (s.index x1 y1) other).length = s.grid.length := by
    simp [List.length_set]
  have hi2A : s.index x2 y2 < (s.grid.set (s.index x1 y1) other).length := by
    rw [hAlen]
    exact i2lt
  have hA2 : (s.grid.set (s.index x1 y1) other)[s.index x2 y2] =
      other := by
    rw [List.getElem_set]
    split
    · rfl
    · exact hq2
  have e1 : ((s.grid.set (s.index x1 y1) other : List Particle) :
      Multiset Particle) =
      other ::ₘ ((s.grid.eraseIdx (s.index x1 y1) : List Particle) :
        Multiset Particle) := by
    rw [Multiset.cons_coe, Multiset.coe_eq_coe]
    exact listSetPerm s.grid (s.index x1 y1) other i1lt
  have e2 : ((s.grid : List Particle) : Multiset Particle) =
      cur ::ₘ ((s.grid.eraseIdx (s.index x1 y1) : List Particle) :
        Multiset Particle) := by
    rw [Multiset.cons_coe, Multiset.coe_eq_coe, ← hq1]
    exact listGetPerm s.grid (s.index x1 y1) i1lt
  have e3 : ((s.grid.set (s.index x1 y1) other : List Particle) :
      Multiset Particle) =
      other ::ₘ (((s.grid.set (s.index x1 y1) other).eraseIdx
        (s.index x2 y2) : List Particle) : Multiset Particle) := by
    rw [Multiset.cons_coe, Multiset.coe_eq_coe]
    have hp := listGetPerm (s.grid.set (s.index x1 y1) other)
      (s.index x2 y2) hi2A
    rwa [hA2] at hp
  have e4 : ((s'.grid : List Particle) : Multiset Particle) =
      cur ::ₘ (((s.grid.set (s.index x1 y1) other).eraseIdx
        (s.index x2 y2) : List Particle) : Multiset Particle) := by
    rw [hgrid, Multiset.cons_coe, Multiset.coe_eq_coe]
    exact listSetPerm _ (s.index x2 y2) cur hi2A
  have e5 := (Multiset.cons_inj_right other).mp (e3.symm.trans e1)
  show (s'.grid : Multiset Particle) = (s.grid : Multiset Particle)
  rw [e4, e5, e2]

theorem swap_get {s s' : FallingSand} {x1 y1 x2 y2 : Nat}
    (h : s.swap x1 y1 x2 y2 = some s') :
    s'.get x1 y1 = s.get x2 y2 ∧ s'.get x2 y2 = s.get x1 y1 := by
  obtain ⟨cur, other, hg1, hg2, hgrid, hw, hh, hu, hc, hlen⟩ := swap_eq h
  obtain ⟨i1lt, -⟩ := get_eq_some_iff.mp hg1
  obtain ⟨i2lt, -⟩ := get_eq_some_iff.mp hg2
  have hidx1 : s'.index x1 y1 = s.index x1 y1 := by
    unfold FallingSand.index
    rw [hw]
  have hidx2 : s'.index x2 y2 = s.index x2 y2 := by
    unfold FallingSand.index
    rw [hw]
  have hAlen : (s.grid.set (s.index x1 y1) other).length = s.grid.length := by
    simp [List.length_set]
  constructor
  · show s'.grid[s'.index x1 y1]? = _
    rw [hidx1, hgrid, List.getElem?_set]
    split
    · rename_i he
      rw [if_pos (by rw [hAlen]; exact i2lt)]
      have hg1A : s.grid[s.index x1 y1]? = some cur := hg1
      have hg2A : s.grid[s.index x2 y2]? = some other := hg2
      rw [he] at hg2A
      have hco : cur = other := Option.some.inj (hg1A.symm.trans hg2A)
      rw [hco, hg2]
    · rw [List.getElem?_set, if_pos rfl, if_pos i1lt, hg2]
  · show s'.grid[s'.index x2 y2]? = _
    rw [hidx2, hgrid, List.getElem?_set, if_pos rfl,
      if_pos (by rw [hAlen]; exact i2lt), hg1]

theorem swap_get_frame {s s' : FallingSand} {x1 y1 x2 y2 : Nat}
    (h : s.swap x1 y1 x2 y2 = some s') {x3 y3 : Nat}
    (hne1 : s.index x3 y3 ≠ s.index x1 y1)
    (hne2 : s.index x3 y3 ≠ s.index x2 y2) :
    s'.get x3 y3 = s.get x3 y3 := by
  obtain ⟨cur, other, hg1, hg2, hgrid, hw, hh, hu, hc, hlen⟩ := swap_eq h
  have hidx3 : s'.index x3 y3 = s.index x3 y3 := by
    unfold FallingSand.index
    rw [hw]
  show s'.grid[s'.index x3 y3]? = s.grid[s.index x3 y3]?
  rw [hidx3, hgrid,
    List.getElem?_set_ne fun hc2 => hne2 hc2.symm,
    List.getElem?_set_ne fun hc1 => hne1 hc1.symm]

theorem swap_isSome {s : FallingSand} {x1 y1 x2 y2 : Nat}
    (h1 : s.index x1 y1 < s.grid.length)
    (h2 : s.index x2 y2 < s.grid.length) :
    ∃ s', s.swap x1 y1 x2 y2 = some s' := by
  unfold FallingSand.swap
  simp only [get_of_lt h1, get_of_lt h2, set_of_lt _ h1]
  refine ⟨_, set_of_lt _ ?_⟩
  simpa [FallingSand.index, List.length_set] using h2

theorem gravity_pmset {s s' : FallingSand} {x y : Nat} {val : Int} {b : Bool}
    (h : s.apply_gravity x y val = some (b, s')) :
    s'.pmset = s.pmset ∧ s'.grid_width = s.grid_width ∧
      s'.grid_height = s.grid_height ∧ s'.update = s.update ∧
      s'.particles_updated = s.particles_updated := by
  unfold FallingSand.apply_gravity at h
  split at h
  · simp only [Option.some.injEq, Prod.mk.injEq] at h
    obtain ⟨-, rfl⟩ := h
    exact ⟨rfl, rfl, rfl, rfl, rfl⟩
  · split at h
    · rename_i pcur pother hg1 hg2
      split at h
      · split at h
        · cases h
        · rename_i s2 hsw
          simp only [Option.some.injEq, Prod.mk.injEq] at h
          obtain ⟨-, rfl⟩ := h
          obtain ⟨hp, hw, hh, hu, hc, -⟩ := swap_pmset hsw
          exact ⟨hp, hw, hh, hu, hc⟩
      · simp only [Option.some.injEq, Prod.mk.injEq] at h
        obtain ⟨-, rfl⟩ := h
        exact ⟨rfl, rfl, rfl, rfl, rfl⟩
    · cases h

theorem gravity_isSome {s : FallingSand} (hWF : s.WF) {x y : Nat}
    (hx : x < s.grid_width) (hy : y < s.grid_height) (val : Int) :
    ∃ r, s.apply_gravity x y val = some r := by
  unfold FallingSand.apply_gravity
  split
  · exact ⟨_, rfl⟩
  · rename_i hcond
    push_neg at hcond
    obtain ⟨h1, h2⟩ := hcond
    have hty : ((y : Int) + val).toNat < s.grid_height := by omega
    simp only [get_of_lt (index_lt hWF hx hy), get_of_lt (index_lt hWF hx hty)]
    split
    · obtain ⟨s2, hsw⟩ :=
        swap_isSome (index_lt hWF hx hy) (index_lt hWF hx hty)
      rw [hsw]
      exact ⟨_, rfl⟩
    · exact ⟨_, rfl⟩

theorem tumble_pmset {s s' : FallingSand} {x y : Nat} {b : Bool}
    (h : s.apply_tumble x y = some (b, s')) :
    s'.pmset = s.pmset ∧ s'.grid_width = s.grid_width ∧
      s'.grid_height = s.grid_height ∧ s'.update = s.update ∧
      s'.particles_updated = s.particles_updated := by
  unfold FallingSand.apply_tumble at h
  split at h
  · cases h
  · split at h
    · split at h
      · cases h
      · rename_i s2 hsw
        simp only [Option.some.injEq, Prod.mk.injEq] at h
        obtain ⟨-, rfl⟩ := h
        obtain ⟨hp, hw, hh, hu, hc, -⟩ := swap_pmset hsw
        exact ⟨hp, hw, hh, hu, hc⟩
    · simp only [Option.some.injEq, Prod.mk.injEq] at h
      obtain ⟨-, rfl⟩ := h
      exact ⟨rfl, rfl, rfl, rfl, rfl⟩

/-- A successful `tumbleRight` translation is either the zero translation
or down-right under its guard. -/
theorem tumbleRight_cases {s : FallingSand} {x y : Nat} {t : Int × Int}
    (h : s.tumbleRight x y = some t) :
    t = (0, 0) ∨
      (t = (1, 1) ∧ y + 1 < s.grid_height ∧ x + 1 < s.grid_width) := by
  unfold FallingSand.tumbleRight at h
  split at h
  · rename_i hg
    split at h
    · cases h
    · split at h
      · right
        exact ⟨(Option.some.inj h).symm, hg⟩
      · left
        exact (Option.some.inj h).symm
  · left
    exact (Option.some.inj h).symm

theorem is_particle_empty_isSome {s : FallingSand} {x y : Nat}
    (hlt : s.index x y < s.grid.length) :
    ∃ e, s.is_particle_empty x y = some e := by
  unfold FallingSand.is_particle_empty
  rw [get_of_lt hlt]
  exact ⟨_, rfl⟩

theorem tumbleRight_isSome {s : FallingSand} (hWF : s.WF) {x y : Nat} :
    ∃ t, s.tumbleRight x y = some t := by
  unfold FallingSand.tumbleRight
  split
  · rename_i hg
    obtain ⟨e, he⟩ := is_particle_empty_isSome (index_lt hWF hg.2 hg.1)
    rw [he]
    cases e
    · exact ⟨_, rfl⟩
    · exact ⟨_, rfl⟩
  · exact ⟨_, rfl⟩

/-- The translate selection of `apply_tumble` always succeeds on a
well-formed state and yields one of three translations, each under the
bound checks that guarded it. -/
theorem tumbleTranslate_cases {s : FallingSand} (hWF : s.WF) {x y : Nat}
    (hx : x < s.grid_width) :
    ∃ t, (if y + 1 < s.grid_height ∧ 0 < x then
        match s.is_particle_empty (x - 1) (y + 1) with
        | none => none
        | some e =>
          if e then some ((-1 : Int), (1 : Int)) else s.tumbleRight x y
       else s.tumbleRight x y) = some t ∧
      (t = (0, 0) ∨ (t = (-1, 1) ∧ y + 1 < s.grid_height ∧ 0 < x) ∨
        (t = (1, 1) ∧ y + 1 < s.grid_height ∧ x + 1 < s.grid_width)) := by
  have hTR : ∀ t, s.tumbleRight x y = some t →
      t = (0, 0) ∨ (t = (-1, 1) ∧ y + 1 < s.grid_height ∧ 0 < x) ∨
        (t = (1, 1) ∧ y + 1 < s.grid_height ∧ x + 1 < s.grid_width) := by
    intro t htr
    rcases tumbleRight_cases htr with h | ⟨h, hg⟩
    · exact Or.inl h
    · exact Or.inr (Or.inr ⟨h, hg⟩)
  split
  · rename_i hg
    obtain ⟨e, he⟩ := is_particle_empty_isSome
      (index_lt hWF (by omega : x - 1 < s.grid_width) hg.1)
    rw [he]
    cases e
    · simp only [Bool.false_eq_true, if_false]
      obtain ⟨t, htr⟩ := tumbleRight_isSome hWF (x := x) (y := y)
      exact ⟨t, htr, hTR t htr⟩
    · exact ⟨(-1, 1), by simp, Or.inr (Or.inl ⟨rfl, hg.1, hg.2⟩)⟩
  · obtain ⟨t, htr⟩ := tumbleRight_isSome hWF (x := x) (y := y)
    exact ⟨t, htr, hTR t htr⟩

theorem tumble_isSome {s : FallingSand} (hWF : s.WF) {x y : Nat}
    (hx : x < s.grid_width) (hy : y < s.grid_height) :
    ∃ r, s.apply_tumble x y = some r := by
  unfold FallingSand.apply_tumble
  obtain ⟨t, hX, hcases⟩ := tumbleTranslate_cases hWF hx (y := y)
  rw [hX]
  rcases hcases with rfl | ⟨rfl, h1, h2⟩ | ⟨rfl, h1, h2⟩
  · exact ⟨(false, s), rfl⟩
  · show ∃ r, (if ((-1 : Int) ≠ 0 ∨ (1 : Int) ≠ 0) then
        match s.swap x y ((x : Int) + (-1)).toNat ((y : Int) + 1).toNat with
        | none => none
        | some s' => some (true, s')
      else some (false, s)) = some r
    rw [if_pos (Or.inl (by decide))]
    have hc1 : ((x : Int) + (-1)).toNat = x - 1 := by omega
    have hc2 : ((y : Int) + 1).toNat = y + 1 := by omega
    rw [hc1, hc2]
    obtain ⟨s2, hsw⟩ := swap_isSome (index_lt hWF hx hy)
      (index_lt hWF (by omega : x - 1 < s.grid_width) h1)
    rw [hsw]
    exact ⟨_, rfl⟩
  · show ∃ r, (if ((1 : Int) ≠ 0 ∨ (1 : Int) ≠ 0) then
        match s.swap x y ((x : Int) + 1).toNat ((y : Int) + 1).toNat with
        | none => none
        | some s' => some (true, s')
      else some (false, s)) = some r
    rw [if_pos (Or.inl (by decide))]
    have hc1 : ((x : Int) + 1).toNat = x + 1 := by omega
    have hc2 : ((y : Int) + 1).toNat = y + 1 := by omega
    rw [hc1, hc2]
    obtain ⟨s2, hsw⟩ := swap_isSome (index_lt hWF hx hy)
      (index_lt hWF h2 h1)
    rw [hsw]
    exact ⟨_, rfl⟩

theorem spread_pmset {s s' : FallingSand} {x y : Nat} {rng rng' : Rng}
    {b : Bool} (h : s.apply_spread x y rng = some (b, s', rng')) :
    s'.pmset = s.pmset ∧ s'.grid_width = s.grid_width ∧
      s'.grid_height = s.grid_height ∧ s'.update = s.update ∧
      s'.particles_updated = s.particles_updated := by
  unfold FallingSand.apply_spread at h
  rcases hrb : rng.randomBool with ⟨c, rng1⟩
  rw [hrb] at h
  simp only at h
  split at h
  · cases h
  · split at h
    · split at h
      · cases h
      · rename_i s2 hsw
        simp only [Option.some.injEq, Prod.mk.injEq] at h
        obtain ⟨-, rfl, -⟩ := h
        obtain ⟨hp, hw, hh, hu, hc, -⟩ := swap_pmset hsw
        exact ⟨hp, hw, hh, hu, hc⟩
    · simp only [Option.some.injEq, Prod.mk.injEq] at h
      obtain ⟨-, rfl, -⟩ := h
      exact ⟨rfl, rfl, rfl, rfl, rfl⟩

theorem spreadCore_isSome {s : FallingSand} (hWF : s.WF) {x y : Nat}
    (hx : x < s.grid_width) (hy : y < s.grid_height) (rng1 : Rng)
    {dir : Int} (hdir : dir = -1 ∨ dir = 1) :
    ∃ r, (match (if 0 < x ∧ (x : Int) + dir < (s.grid_width : Int) then
        match s.is_particle_empty ((x : Int) + dir).toNat y with
        | none => none
        | some e => if e then some dir else some 0
       else some (0 : Int)) with
      | none => none
      | some trans_x =>
        if trans_x ≠ 0 then
          match s.swap x y ((x : Int) + trans_x).toNat y with
          | none => none
          | some s' => some (true, s', rng1)
        else some (false, s, rng1)) = some r := by
  by_cases hg : 0 < x ∧ (x : Int) + dir < (s.grid_width : Int)
  · have hxd : ((x : Int) + dir).toNat < s.grid_width := by
      rcases hdir with rfl | rfl
      · omega
      · omega
    obtain ⟨e, he⟩ := is_particle_empty_isSome (index_lt hWF hxd hy)
    rw [if_pos hg, he]
    cases e
    · exact ⟨(false, s, rng1), rfl⟩
    · have hne : dir ≠ 0 := by
        rcases hdir with rfl | rfl
        · decide
        · decide
      obtain ⟨s2, hsw⟩ := swap_isSome (index_lt hWF hx hy)
        (index_lt hWF hxd hy)
      refine ⟨(true, s2, rng1), ?_⟩
      show (if dir ≠ 0 then
          match s.swap x y ((x : Int) + dir).toNat y with
          | none => none
          | some s' => some (true, s', rng1)
        else some (false, s, rng1)) = some (true, s2, rng1)
      rw [if_pos hne, hsw]
  · rw [if_neg hg]
    exact ⟨(false, s, rng1), rfl⟩

theorem spread_isSome {s : FallingSand} (hWF : s.WF) {x y : Nat}
    (hx : x < s.grid_width) (hy : y < s.grid_height) (rng : Rng) :
    ∃ r, s.apply_spread x y rng = some r := by
  unfold FallingSand.apply_spread
  rcases hrb : rng.randomBool with ⟨c, rng1⟩
  cases c
  · exact spreadCore_isSome hWF hx hy rng1 (Or.inr rfl)
  · exact spreadCore_isSome hWF hx hy rng1 (Or.inl rfl)

theorem spawn_oob {s : FallingSand} {x y : Nat} {p : Particle}
    (h : ¬(x < s.grid_width ∧ y < s.grid_height)) :
    s.spawn_particle x y p = some s := by
  unfold FallingSand.spawn_particle
  rw [if_neg h]

theorem spawn_inb {s : FallingSand} (hWF : s.WF) {x y : Nat}
    (hx : x < s.grid_width) (hy : y < s.grid_height) (p : Particle) :
    s.spawn_particle x y p =
      some { s with grid := s.grid.set (s.index x y) p } := by
  unfold FallingSand.spawn_particle
  rw [if_pos ⟨hx, hy⟩]
  exact set_of_lt _ (index_lt hWF hx hy)

theorem reactNeighbours_spec {s : FallingSand} (hWF : s.WF) {x y : Nat}
    (r : Strain × Nat × Strain) :
    ∀ (vs : List (Int × Int)) (p : Particle) (rng : Rng),
      ∃ p' rng', s.reactNeighbours x y r p rng vs = some (p', rng') ∧
        p'.update = p.update ∧ (p'.strain = p.strain ∨ p'.strain = r.2.2) := by
  intro vs
  induction vs with
  | nil =>
    intro p rng
    exact ⟨p, rng, rfl, rfl, Or.inl rfl⟩
  | cons v vs ih =>
    intro p rng
    unfold FallingSand.reactNeighbours
    split
    · rename_i hg
      rw [get_of_lt (index_lt hWF hg.1 hg.2)]
      simp only
      split
      · rcases hd : (rng.genRange 0 100) with ⟨d, rng1⟩
        simp only [hd]
        split
        · rcases hlt : (r.2.2.base_lifetime rng1) with ⟨lt, rng2⟩
          simp only [hlt]
          exact ⟨_, _, rfl, rfl, Or.inr rfl⟩
        · exact ih p rng1
      · exact ih p rng
    · exact ih p rng

theorem reactLoop_spec {s : FallingSand} (hWF : s.WF) {x y : Nat} :
    ∀ (rs : List (Strain × Nat × Strain)) (p : Particle) (rng : Rng),
      ∃ p' rng', s.reactLoop x y p rng rs = some (p', rng') ∧
        p'.update = p.update ∧
        (p'.strain = p.strain ∨ ∃ e ∈ rs, p'.strain = e.2.2) := by
  intro rs
  induction rs with
  | nil =>
    intro p rng
    exact ⟨p, rng, rfl, rfl, Or.inl rfl⟩
  | cons r rs ih =>
    intro p rng
    obtain ⟨p1, rng1, h1, hu1, hs1⟩ :=
      reactNeighbours_spec hWF r four_adj_particles p rng
    obtain ⟨p', rng', h2, hu2, hs2⟩ := ih p1 rng1
    refine ⟨p', rng', ?_, hu2.trans hu1, ?_⟩
    · unfold FallingSand.reactLoop
      rw [h1]
      exact h2
    · rcases hs2 with h | ⟨e, he, hst⟩
      · rcases hs1 with h' | h'
        · exact Or.inl (h.trans h')
        · exact Or.inr ⟨r, List.mem_cons_self r rs, h.trans h'⟩
      · exact Or.inr ⟨e, List.mem_cons_of_mem r he, hst⟩

theorem processedParticle_strain (p : Particle) :
    (processedParticle p).strain = p.strain := by
  unfold processedParticle
  split
  · rfl
  · rfl

theorem processedParticle_update (p : Particle) :
    (processedParticle p).update = !p.update := by
  unfold processedParticle
  split
  · rfl
  · rfl

theorem len_of_pmset {s s' : FallingSand} (hp : s'.pmset = s.pmset) :
    s'.grid.length = s.grid.length := by
  have hcard := congrArg Multiset.card hp
  simpa [FallingSand.pmset] using hcard

theorem WF_of_frame {s s' : FallingSand} (hWF : s.WF)
    (hw : s'.grid_width = s.grid_width) (hh : s'.grid_height = s.grid_height)
    (hl : s'.grid.length = s.grid.length) : s'.WF := by
  obtain ⟨h1, h2, h3⟩ := hWF
  refine ⟨?_, ?_, ?_⟩
  · rw [hl, hw, hh]
    exact h1
  · rw [hw]
    exact h2
  · rw [hh]
    exact h3

theorem igniteLoop_spec (x y : Nat) :
    ∀ (vs : List (Int × Int)) (s : FallingSand) (rng : Rng), s.WF →
      ∃ s' rng', FallingSand.igniteLoop x y s rng vs = some (s', rng') ∧
        (∀ par, StepFrame par s s') := by
  intro vs
  induction vs with
  | nil =>
    intro s rng hWF
    exact ⟨s, rng, rfl, fun par => stepFrame_refl par s⟩
  | cons v vs ih =>
    intro s rng hWF
    unfold FallingSand.igniteLoop
    split
    · rename_i hg
      rw [get_of_lt (index_lt hWF hg.1 hg.2)]
      simp only
      split
      · rename_i hcond
        rcases hd : rng.genRange 0 100 with ⟨d, rng1⟩
        split
        · rcases hbl : Strain.Fire.base_lifetime rng1 with ⟨lt, rng2⟩
          rw [set_of_lt _ (index_lt hWF hg.1 hg.2)]
          refine ⟨_, rng2, rfl, fun par => ?_⟩
          obtain ⟨M, hM, hM', hgr, hlen, hw, hh, hu, hc⟩ :=
            pmset_set (set_of_lt _ (index_lt hWF hg.1 hg.2))
              (get_of_lt (index_lt hWF hg.1 hg.2))
          refine ⟨hw, hh, hlen, hu, ?_, ?_⟩
          · unfold eligCount
            rw [hM, hM', hc, Multiset.countP_cons, Multiset.countP_cons]
          · unfold FallingSand.mats
            rw [hM, hM', Multiset.map_cons, Multiset.map_cons]
            exact Relation.ReflTransGen.single
              ⟨Multiset.map Particle.strain M, _, _,
                StrainTrans.ignite _ hcond.1 hcond.2, rfl, rfl⟩
        · exact ih s rng1 hWF
      · exact ih s rng hWF
    · exact ih s rng hWF

theorem dispatch_spec (st : Strain) {s : FallingSand} (hWF : s.WF)
    {x y : Nat} (hx : x < s.grid_width) (hy : y < s.grid_height)
    (rng : Rng) :
    ∃ s' rng', FallingSand.dispatch x y st s rng = some (s', rng') ∧
      (∀ par, StepFrame par s s') := by
  cases st
  case Empty => exact ⟨s, rng, rfl, fun par => stepFrame_refl par s⟩
  case Wood => exact ⟨s, rng, rfl, fun par => stepFrame_refl par s⟩
  case Glass => exact ⟨s, rng, rfl, fun par => stepFrame_refl par s⟩
  case Sand =>
    obtain ⟨⟨b, s1⟩, hgr⟩ := gravity_isSome hWF hx hy 1
    obtain ⟨hp1, hw1, hh1, hu1, hc1⟩ := gravity_pmset hgr
    have f1 : ∀ par, StepFrame par s s1 :=
      fun par => stepFrame_of_pmset hp1 hw1 hh1 hu1 hc1
    unfold FallingSand.dispatch
    simp only [hgr]
    cases b
    · obtain ⟨⟨b2, s2⟩, htu⟩ := tumble_isSome
        (WF_of_frame hWF hw1 hh1 (len_of_pmset hp1))
        (x := x) (y := y) (by rw [hw1]; exact hx) (by rw [hh1]; exact hy)
      rw [htu]
      obtain ⟨hp2, hw2, hh2, hu2, hc2⟩ := tumble_pmset htu
      exact ⟨s2, rng, rfl, fun par => stepFrame_trans (f1 par)
        (stepFrame_of_pmset hp2 hw2 hh2 hu2 hc2)⟩
    · exact ⟨s1, rng, rfl, f1⟩
  case Water =>
    obtain ⟨⟨b, s1⟩, hgr⟩ := gravity_isSome hWF hx hy 1
    obtain ⟨hp1, hw1, hh1, hu1, hc1⟩ := gravity_pmset hgr
    have hWF1 : s1.WF := WF_of_frame hWF hw1 hh1 (len_of_pmset hp1)
    have f1 : ∀ par, StepFrame par s s1 :=
      fun par => stepFrame_of_pmset hp1 hw1 hh1 hu1 hc1
    unfold FallingSand.dispatch
    simp only [hgr]
    cases b
    · obtain ⟨⟨b2, s2⟩, htu⟩ := tumble_isSome hWF1 (x := x) (y := y)
        (by rw [hw1]; exact hx) (by rw [hh1]; exact hy)
      obtain ⟨hp2, hw2, hh2, hu2, hc2⟩ := tumble_pmset htu
      have hWF2 : s2.WF := WF_of_frame hWF1 hw2 hh2 (len_of_pmset hp2)
      have f2 : ∀ par, StepFrame par s1 s2 :=
        fun par => stepFrame_of_pmset hp2 hw2 hh2 hu2 hc2
      simp only [htu]
      cases b2
      · obtain ⟨⟨b3, s3, rng3⟩, hsp⟩ := spread_isSome hWF2 (x := x) (y := y)
          (by rw [hw2, hw1]; exact hx) (by rw [hh2, hh1]; exact hy) rng
        obtain ⟨hp3, hw3, hh3, hu3, hc3⟩ := spread_pmset hsp
        rw [hsp]
        exact ⟨s3, rng3, rfl, fun par => stepFrame_trans (f1 par)
          (stepFrame_trans (f2 par)
            (stepFrame_of_pmset hp3 hw3 hh3 hu3 hc3))⟩
      · exact ⟨s2, rng, rfl, fun par => stepFrame_trans (f1 par) (f2 par)⟩
    · exact ⟨s1, rng, rfl, f1⟩
  case MoltenGlass =>
    obtain ⟨⟨b, s1⟩, hgr⟩ := gravity_isSome hWF hx hy 1
    obtain ⟨hp1, hw1, hh1, hu1, hc1⟩ := gravity_pmset hgr
    have hWF1 : s1.WF := WF_of_frame hWF hw1 hh1 (len_of_pmset hp1)
    have f1 : ∀ par, StepFrame par s s1 :=
      fun par => stepFrame_of_pmset hp1 hw1 hh1 hu1 hc1
    unfold FallingSand.dispatch
    simp only [hgr]
    cases b
    · rcases hrb : rng.randomBool with ⟨b2, rng2⟩
      simp only []
      cases b2
      · exact ⟨s1, rng2, rfl, f1⟩
      · obtain ⟨⟨bt, s2⟩, htu⟩ := tumble_isSome hWF1 (x := x) (y := y)
          (by rw [hw1]; exact hx) (by rw [hh1]; exact hy)
        obtain ⟨hp2, hw2, hh2, hu2, hc2⟩ := tumble_pmset htu
        have hWF2 : s2.WF := WF_of_frame hWF1 hw2 hh2 (len_of_pmset hp2)
        have f2 : ∀ par, StepFrame par s1 s2 :=
          fun par => stepFrame_of_pmset hp2 hw2 hh2 hu2 hc2
        simp only [htu]
        cases bt
        · obtain ⟨⟨b3, s3, rng3⟩, hsp⟩ := spread_isSome hWF2 (x := x)
            (y := y) (by rw [hw2, hw1]; exact hx)
            (by rw [hh2, hh1]; exact hy) rng2
          obtain ⟨hp3, hw3, hh3, hu3, hc3⟩ := spread_pmset hsp
          rw [hsp]
          exact ⟨s3, rng3, rfl, fun par => stepFrame_trans (f1 par)
            (stepFrame_trans (f2 par)
              (stepFrame_of_pmset hp3 hw3 hh3 hu3 hc3))⟩
        · exact ⟨s2, rng2, rfl, fun par => stepFrame_trans (f1 par) (f2 par)⟩
    · exact ⟨s1, rng, rfl, f1⟩
  case Fire =>
    unfold FallingSand.dispatch
    rcases hb0 : rng.randomBool with ⟨b0, rng0⟩
    simp only []
    cases b0
    · rcases hb1 : rng0.randomBool with ⟨b1, rng2⟩
      simp only []
      cases b1
      · obtain ⟨s3, rng4, hig, f3⟩ :=
          igniteLoop_spec x y four_adj_particles s rng2 hWF
        exact ⟨s3, rng4, hig, f3⟩
      · obtain ⟨⟨b, s2, rng3⟩, hsp⟩ :=
          spread_isSome hWF (x := x) (y := y) hx hy rng2
        obtain ⟨hp2, hw2, hh2, hu2, hc2⟩ := spread_pmset hsp
        have hWF2 : s2.WF := WF_of_frame hWF hw2 hh2 (len_of_pmset hp2)
        simp only [hsp, Bool.false_eq_true, if_false, if_true]
        obtain ⟨s3, rng4, hig, f3⟩ :=
          igniteLoop_spec x y four_adj_particles s2 rng3 hWF2
        exact ⟨s3, rng4, hig, fun par => stepFrame_trans
          (stepFrame_of_pmset hp2 hw2 hh2 hu2 hc2) (f3 par)⟩
    · obtain ⟨⟨b, s1⟩, hgr⟩ := gravity_isSome hWF hx hy (-1)
      obtain ⟨hp1, hw1, hh1, hu1, hc1⟩ := gravity_pmset hgr
      have hWF1 : s1.WF := WF_of_frame hWF hw1 hh1 (len_of_pmset hp1)
      have f1 : ∀ par, StepFrame par s s1 :=
        fun par => stepFrame_of_pmset hp1 hw1 hh1 hu1 hc1
      simp only [hgr]
      rcases hb1 : rng0.randomBool with ⟨b1, rng2⟩
      simp only []
      cases b1
      · obtain ⟨s3, rng4, hig, f3⟩ :=
          igniteLoop_spec x y four_adj_particles s1 rng2 hWF1
        exact ⟨s3, rng4, hig, fun par => stepFrame_trans (f1 par) (f3 par)⟩
      · obtain ⟨⟨b2, s2, rng3⟩, hsp⟩ := spread_isSome hWF1 (x := x) (y := y)
          (by rw [hw1]; exact hx) (by rw [hh1]; exact hy) rng2
        obtain ⟨hp2, hw2, hh2, hu2, hc2⟩ := spread_pmset hsp
        have hWF2 : s2.WF := WF_of_frame hWF1 hw2 hh2 (len_of_pmset hp2)
        simp only [hsp, Bool.false_eq_true, if_false, if_true]
        obtain ⟨s3, rng4, hig, f3⟩ :=
          igniteLoop_spec x y four_adj_particles s2 rng3 hWF2
        exact ⟨s3, rng4, hig, fun par => stepFrame_trans (f1 par)
          (stepFrame_trans (stepFrame_of_pmset hp2 hw2 hh2 hu2 hc2)
            (f3 par))⟩

theorem stepCell_spec {s : FallingSand} (hWF : s.WF) {x y : Nat}
    (hx : x < s.grid_width) (hy : y < s.grid_height) (rng : Rng) :
    ∃ s' rng', s.stepCell rng x y = some (s', rng') ∧
      StepFrame s.update s s' := by
  have hidx := index_lt hWF hx hy
  unfold FallingSand.stepCell
  simp only [get_of_lt hidx]
  split
  · rcases hbl : ((s.grid[s.index x y]).strain.death_strain.base_lifetime rng)
      with ⟨lt, rngd⟩
    rw [set_of_lt _ hidx]
    refine ⟨_, rngd, rfl, ?_⟩
    obtain ⟨M, hM, hM1, -, hlen, hw, hh, hu, hc⟩ :=
      pmset_set (set_of_lt _ hidx) (get_of_lt hidx)
    refine ⟨hw, hh, hlen, hu, ?_, ?_⟩
    · unfold eligCount
      rw [hM, hM1, hc, Multiset.countP_cons, Multiset.countP_cons]
    · unfold FallingSand.mats
      rw [hM, hM1, Multiset.map_cons, Multiset.map_cons]
      exact Relation.ReflTransGen.single
        ⟨_, _, _, StrainTrans.decay (s.grid[s.index x y]).strain, rfl, rfl⟩
  · split
    · rename_i hdead helig
      obtain ⟨p3, rng1, hrl, hu3, hs3⟩ := reactLoop_spec hWF (x := x) (y := y)
        ((processedParticle (s.grid[s.index x y])).strain.reactable_strains)
        (processedParticle (s.grid[s.index x y])) rng
      simp only [hrl]
      rw [set_of_lt _ hidx]
      have hWF1 : FallingSand.WF
          { s with grid := s.grid.set (s.index x y) p3 } :=
        WF_of_frame hWF rfl rfl (by simp [List.length_set])
      obtain ⟨s2, rng2, hdsp, f2⟩ := dispatch_spec p3.strain hWF1 hx hy rng1
      simp only [hdsp]
      refine ⟨_, rng2, rfl, ?_⟩
      obtain ⟨M, hM, hM1, -, hlen1, -, -, -, -⟩ :=
        pmset_set (set_of_lt p3 hidx) (get_of_lt hidx)
      obtain ⟨fw, fh, fl, fu, fsum, fmats⟩ := f2 s.update
      have hup3 : p3.update = !s.update := by
        rw [hu3, processedParticle_update, helig.1]
      have e1 : eligCount s.update s =
          Multiset.countP (fun p => p.update = s.update) M + 1 := by
        unfold eligCount
        rw [hM, Multiset.countP_cons, if_pos helig.1]
      have e2 : eligCount s.update
          { s with grid := s.grid.set (s.index x y) p3 } =
          Multiset.countP (fun p => p.update = s.update) M := by
        unfold eligCount
        rw [hM1, Multiset.countP_cons, if_neg (by simp [hup3])]
        omega
      refine ⟨fw, fh, by rw [fl]; exact hlen1, fu, ?_, ?_⟩
      · show s2.particles_updated + 1 + eligCount s.update
          { s2 with particles_updated := s2.particles_updated + 1 } =
          s.particles_updated + eligCount s.update s
        have e3 : eligCount s.update
            { s2 with particles_updated := s2.particles_updated + 1 } =
            eligCount s.update s2 := rfl
        have fsum2 : s2.particles_updated + eligCount s.update s2 =
            s.particles_updated +
              Multiset.countP (fun p => p.update = s.update) M := by
          have haux := fsum
          rw [e2] at haux
          exact haux
        rw [e3, e1]
        omega
      · have step1 : matsEvolve s.mats
            (FallingSand.mats { s with grid := s.grid.set (s.index x y) p3 })
            := by
          unfold FallingSand.mats
          rw [hM, hM1, Multiset.map_cons, Multiset.map_cons]
          rcases hs3 with heq | ⟨e, he, hst⟩
          · rw [heq, processedParticle_strain]
            exact Relation.ReflTransGen.refl
          · rw [processedParticle_strain] at he
            refine Relation.ReflTransGen.single
              ⟨_, _, _, StrainTrans.react (s.grid[s.index x y]).strain
                p3.strain e.1 e.2.1 ?_, rfl, rfl⟩
            rw [hst]
            exact he
        have step3 : FallingSand.mats
            { s2 with particles_updated := s2.particles_updated + 1 } =
            s2.mats := rfl
        rw [step3]
        exact step1.trans fmats
    · exact ⟨s, rng, rfl, stepFrame_refl s.update s⟩

theorem scanRow_spec (y : Nat) :
    ∀ (xs : List Nat) (s : FallingSand) (rng : Rng), s.WF →
      (∀ x ∈ xs, x < s.grid_width) → y < s.grid_height →
      ∃ s' rng', FallingSand.scanRow y s rng xs = some (s', rng') ∧
        StepFrame s.update s s' := by
  intro xs
  induction xs with
  | nil =>
    intro s rng hWF hxs hy
    exact ⟨s, rng, rfl, stepFrame_refl s.update s⟩
  | cons x xs ih =>
    intro s rng hWF hxs hy
    obtain ⟨s1, rng1, hsc, f1⟩ := stepCell_spec hWF
      (hxs x (List.mem_cons_self x xs)) hy rng
    obtain ⟨fw, fh, fl, fu, fsum, fmats⟩ := f1
    have hWF1 : s1.WF := WF_of_frame hWF fw fh fl
    obtain ⟨s2, rng2, hsc2, f2⟩ := ih s1 rng1 hWF1
      (fun x2 hx2 => by
        rw [fw]
        exact hxs x2 (List.mem_cons_of_mem x hx2))
      (by rw [fh]; exact hy)
    refine ⟨s2, rng2, ?_, ?_⟩
    · unfold FallingSand.scanRow
      rw [hsc]
      exact hsc2
    · have f2a : StepFrame s.update s1 s2 := by
        rw [← fu]
        exact f2
      exact stepFrame_trans ⟨fw, fh, fl, fu, fsum, fmats⟩ f2a

theorem scanRows_spec :
    ∀ (ys : List Nat) (s : FallingSand) (rng : Rng), s.WF →
      (∀ y ∈ ys, y < s.grid_height) →
      ∃ s' rng', FallingSand.scanRows s rng ys = some (s', rng') ∧
        StepFrame s.update s s' := by
  intro ys
  induction ys with
  | nil =>
    intro s rng hWF hys
    exact ⟨s, rng, rfl, stepFrame_refl s.update s⟩
  | cons y ys ih =>
    intro s rng hWF hys
    obtain ⟨s1, rng1, hsc, f1⟩ := scanRow_spec y (List.range s.grid_width)
      s rng hWF (fun x hx => List.mem_range.mp hx)
      (hys y (List.mem_cons_self y ys))
    obtain ⟨fw, fh, fl, fu, fsum, fmats⟩ := f1
    have hWF1 : s1.WF := WF_of_frame hWF fw fh fl
    obtain ⟨s2, rng2, hsc2, f2⟩ := ih s1 rng1 hWF1
      (fun y2 hy2 => by
        rw [fh]
        exact hys y2 (List.mem_cons_of_mem y hy2))
    refine ⟨s2, rng2, ?_, ?_⟩
    · unfold FallingSand.scanRows
      rw [hsc]
      exact hsc2
    · have f2a : StepFrame s.update s1 s2 := by
        rw [← fu]
        exact f2
      exact stepFrame_trans ⟨fw, fh, fl, fu, fsum, fmats⟩ f2a

theorem tick_frame {s : FallingSand} (hWF : s.WF) (rng : Rng) :
    ∃ s' rng', s.tick rng = some (s', rng') ∧
      s'.grid_width = s.grid_width ∧ s'.grid_height = s.grid_height ∧
      s'.grid.length = s.grid.length ∧ s'.update = (!s.update) ∧
      s'.particles_updated + eligCount s.update s' =
        eligCount s.update s ∧
      matsEvolve s.mats s'.mats ∧ s'.WF := by
  have hWF0 : FallingSand.WF { s with particles_updated := 0 } := hWF
  obtain ⟨s1, rng1, hsc, f1⟩ := scanRows_spec
    (List.range (FallingSand.grid_height
      { s with particles_updated := 0 })).reverse
    { s with particles_updated := 0 } rng hWF0
    (fun y2 hy2 => List.mem_range.mp (List.mem_reverse.mp hy2))
  obtain ⟨fw, fh, fl, fu, fsum, fmats⟩ := f1
  have hsum : s1.particles_updated + eligCount s.update s1 =
      0 + eligCount s.update s := fsum
  refine ⟨{ s1 with update := !s1.update }, rng1, ?_, fw, fh, fl, ?_, ?_,
    fmats, WF_of_frame hWF fw fh fl⟩
  · unfold FallingSand.tick
    simp only [hsc]
  · show (!s1.update) = !s.update
    have hus : s1.update = s.update := fu
    rw [hus]
  · show s1.particles_updated + eligCount s.update s1 =
      eligCount s.update s
    omega

theorem WF_mk {s : FallingSand}
    (h1 : s.grid.length = s.grid_width * s.grid_height)
    (h2 : s.grid_width < 2 ^ 64) (h3 : s.grid_height < 2 ^ 64) : s.WF :=
  ⟨h1, h2, h3⟩

theorem index_ne {s : FallingSand} {x2 y2 x y : Nat}
    (hx2 : x2 < s.grid_width) (hx : x < s.grid_width)
    (hne : (x2, y2) ≠ (x, y)) : s.index x2 y2 ≠ s.index x y := by
  intro h
  obtain ⟨h1, h2⟩ := index_inj hx2 hx h
  exact hne (by rw [h1, h2])

/-- A cell whose lifetime is not 0 and which fails the eligibility check is
left untouched by the per-cell step. -/
theorem stepCell_skip {s : FallingSand} {rng : Rng} {x y : Nat}
    {p : Particle} (hget : s.get x y = some p) (hlt : p.lifetime ≠ 0)
    (hcond : ¬(p.update = s.update ∧ p.strain ≠ .Empty)) :
    s.stepCell rng x y = some (s, rng) := by
  unfold FallingSand.stepCell
  simp only [hget]
  rw [if_neg hlt, if_neg hcond]

/-- C10: the decay check runs before and independently of the eligibility
flag check — a cell whose lifetime is 0 is transformed to its death
material (with that material's base lifetime) whatever its `update` flag;
the transform keeps the flag, leaves `particles_updated` unchanged, and
touches no other cell. -/
theorem c10_decay_before_eligibility : ∀ (s : FallingSand) (rng : Rng)
    (x y : Nat) (p : Particle), s.WF → x < s.grid_width →
    y < s.grid_height → s.get x y = some p → p.lifetime = 0 →
    ∃ s', s.stepCell rng x y =
        some (s', (p.strain.death_strain.base_lifetime rng).2) ∧
      s'.get x y = some (Particle.mk p.strain.death_strain p.update
        ((p.strain.death_strain.base_lifetime rng).1)) ∧
      s'.particles_updated = s.particles_updated ∧
      s'.update = s.update ∧
      (∀ x2 y2, x2 < s.grid_width → y2 < s.grid_height →
        (x2, y2) ≠ (x, y) → s'.get x2 y2 = s.get x2 y2) := by
  intro s rng x y p hWF hx hy hget hdead
  have hidx := index_lt hWF hx hy
  unfold FallingSand.stepCell
  simp only [hget]
  rw [if_pos hdead]
  rcases hbl : p.strain.death_strain.base_lifetime rng with ⟨lt, rngd⟩
  rw [set_of_lt _ hidx]
  refine ⟨_, rfl, ?_, rfl, rfl, ?_⟩
  · exact set_get (set_of_lt _ hidx)
  · intro x2 y2 hx2 hy2 hne
    exact set_get_frame (set_of_lt _ hidx) (index_ne hx2 hx hne)

/-- Witness for C10 at a concrete state: a Fire particle with lifetime 0
whose flag does not match the parity still decays to Empty. -/
theorem c10_witness :
    ∃ s', deadFireFlaggedState.stepCell ⟨[]⟩ 0 0 =
        some (s',
          ((mkP .Fire true 0).strain.death_strain.base_lifetime ⟨[]⟩).2) ∧
      s'.get 0 0 = some (Particle.mk (mkP .Fire true 0).strain.death_strain
        (mkP .Fire true 0).update
        (((mkP .Fire true 0).strain.death_strain.base_lifetime ⟨[]⟩).1)) ∧
      s'.particles_updated = deadFireFlaggedState.particles_updated ∧
      s'.update = deadFireFlaggedState.update ∧
      (∀ x2 y2, x2 < deadFireFlaggedState.grid_width →
        y2 < deadFireFlaggedState.grid_height → (x2, y2) ≠ (0, 0) →
        s'.get x2 y2 = deadFireFlaggedState.get x2 y2) :=
  c10_decay_before_eligibility deadFireFlaggedState ⟨[]⟩ 0 0
    (mkP .Fire true 0) (WF_mk (by decide) (by decide) (by decide))
    (by decide) (by decide) (by decide) (by decide)

/-- Counterexample to C1 as stated: in a 1×2 grid the Fire particle at
(0,1) attempts to rise to the in-bounds, Empty row 0; the claim predicts a
successful swap, but `apply_gravity` fails (the source checks
`y + val <= 0`, so target row 0 is rejected). -/
theorem c1_counterexample :
    gravityTopState.apply_gravity 0 1 (-1) = some (false, gravityTopState) ∧
    gravityTopState.get 0 0 = some Particle.default ∧
    Particle.default.strain = .Empty ∧
    (0 : Int) ≤ (1 : Int) + (-1) ∧
    (1 : Int) + (-1) < (gravityTopState.grid_height : Int) := by
  refine ⟨by decide, by decide, by decide, by decide, by decide⟩

/-- C1 as amended: the gravity primitive fails exactly when the target row
`y+dir` lies outside `[1, height)` — row 0 is also rejected; for a target
row in `[1, height)` it swaps the two cells iff the target is Empty or has
strictly lower density, leaving every other cell and all the state's
bookkeeping fields unchanged, and otherwise fails leaving the state
unchanged. -/
theorem c1_gravity_amended : ∀ (s : FallingSand) (x y : Nat) (val : Int),
    s.WF → x < s.grid_width → y < s.grid_height →
    ((((y : Int) + val ≤ 0 ∨ (s.grid_height : Int) ≤ (y : Int) + val) →
      s.apply_gravity x y val = some (false, s)) ∧
     (∀ p q, 0 < (y : Int) + val →
      (y : Int) + val < (s.grid_height : Int) →
      s.get x y = some p → s.get x ((y : Int) + val).toNat = some q →
      ((q.strain = .Empty ∨ q.strain.density < p.strain.density →
        ∃ s', s.apply_gravity x y val = some (true, s') ∧
          s'.get x y = some q ∧
          s'.get x ((y : Int) + val).toNat = some p ∧
          (∀ x2 y2, x2 < s.grid_width → y2 < s.grid_height →
            (x2, y2) ≠ (x, y) → (x2, y2) ≠ (x, ((y : Int) + val).toNat) →
            s'.get x2 y2 = s.get x2 y2) ∧
          s'.grid_width = s.grid_width ∧ s'.grid_height = s.grid_height ∧
          s'.update = s.update ∧
          s'.particles_updated = s.particles_updated) ∧
       (¬(q.strain = .Empty ∨ q.strain.density < p.strain.density) →
        s.apply_gravity x y val = some (false, s))))) := by
  intro s x y val hWF hx hy
  constructor
  · intro hb
    unfold FallingSand.apply_gravity
    rw [if_pos ?_]
    rcases hb with h | h
    · exact Or.inl h
    · right
      omega
  · intro p q h1 h2 hgp hgq
    have hty : ((y : Int) + val).toNat < s.grid_height := by omega
    constructor
    · intro hcond
      unfold FallingSand.apply_gravity
      rw [if_neg (by omega)]
      simp only [hgp, hgq]
      rw [if_pos ?_]
      swap
      · rcases hcond with h | h
        · exact Or.inr h
        · exact Or.inl h
      obtain ⟨s', hsw⟩ := swap_isSome (index_lt hWF hx hy)
        (index_lt hWF hx hty)
      rw [hsw]
      obtain ⟨hg1, hg2⟩ := swap_get hsw
      obtain ⟨-, hw, hh, hu, hc, -⟩ := swap_pmset hsw
      refine ⟨s', rfl, hg1.trans hgq, hg2.trans hgp, ?_, hw, hh, hu, hc⟩
      intro x2 y2 hx2 hy2 hne1 hne2
      exact swap_get_frame hsw (index_ne hx2 hx hne1) (index_ne hx2 hx hne2)
    · intro hcond
      unfold FallingSand.apply_gravity
      rw [if_neg (by omega)]
      simp only [hgp, hgq]
      rw [if_neg ?_]
      intro hcontra
      rcases hcontra with h | h
      · exact hcond (Or.inr h)
      · exact hcond (Or.inl h)

/-- Witness for the amended C1: Sand at (0,0) above an Empty cell at (0,1)
falls one row (target row 1 is in `[1, height)`). -/
theorem c1_witness :
    ∃ s', oneSandFallState.apply_gravity 0 0 1 = some (true, s') ∧
      s'.get 0 0 = some Particle.default ∧
      s'.get 0 1 = some (mkP .Sand false (-1)) := by
  obtain ⟨h1, h2⟩ := c1_gravity_amended oneSandFallState 0 0 1
    (WF_mk (by decide) (by decide) (by decide)) (by decide) (by decide)
  obtain ⟨hsuc, -⟩ := h2 (mkP .Sand false (-1)) Particle.default (by decide)
    (by decide) (by decide) (by decide)
  obtain ⟨s', ha, hb, hc, -⟩ := hsuc (by decide)
  exact ⟨s', ha, hb, hc⟩

/-- Counterexample to C8 as stated: spawning Sand at the in-bounds cell
(1,0) while the global parity flag is `false` produces a particle whose
flag is `false` (the `Default`), not the opposite of the parity. -/
theorem c8_counterexample :
    spreadEdgeState.spawnAt 1 0 .Sand ⟨[]⟩ = some (spawnEdgeAfter, ⟨[]⟩) ∧
    spawnEdgeAfter.get 1 0 = some (mkP .Sand false (-1)) ∧
    spreadEdgeState.update = false ∧
    (mkP .Sand false (-1)).update ≠ (!spreadEdgeState.update) := by
  refine ⟨by decide, by decide, by decide, by decide⟩

/-- C8 as amended: an in-bounds spawn of material `m` at `(x,y)` overwrites
that cell with a fresh particle of material `m` and lifetime
`m.base_lifetime`, whose `update` flag is the `Default` value `false`
independently of the global parity; nothing else changes. -/
theorem c8_spawn_amended : ∀ (s : FallingSand) (x y : Nat) (m : Strain)
    (rng : Rng), s.WF → x < s.grid_width → y < s.grid_height →
    ∃ s', s.spawnAt x y m rng = some (s', (m.base_lifetime rng).2) ∧
      s'.get x y = some (Particle.mk m false ((m.base_lifetime rng).1)) ∧
      (∀ x2 y2, x2 < s.grid_width → y2 < s.grid_height →
        (x2, y2) ≠ (x, y) → s'.get x2 y2 = s.get x2 y2) ∧
      s'.update = s.update ∧ s'.grid_width = s.grid_width ∧
      s'.grid_height = s.grid_height ∧
      s'.particles_updated = s.particles_updated := by
  intro s x y m rng hWF hx hy
  unfold FallingSand.spawnAt
  rcases hbl : m.base_lifetime rng with ⟨lt, rng2⟩
  simp only []
  rw [spawn_inb hWF hx hy]
  have hset : s.set x y (Particle.mk m false lt) =
      some { s with
              grid := s.grid.set (s.index x y) (Particle.mk m false lt) } :=
    set_of_lt _ (index_lt hWF hx hy)
  refine ⟨_, rfl, set_get hset, ?_, rfl, rfl, rfl, rfl⟩
  intro x2 y2 hx2 hy2 hne
  exact set_get_frame hset (index_ne hx2 hx hne)

/-- Witness for the amended C8 at a concrete state. -/
theorem c8_witness :
    ∃ s', spreadEdgeState.spawnAt 1 0 .Sand ⟨[]⟩ =
        some (s', (Strain.Sand.base_lifetime ⟨[]⟩).2) ∧
      s'.get 1 0 = some (Particle.mk .Sand false
        ((Strain.Sand.base_lifetime ⟨[]⟩).1)) ∧
      (∀ x2 y2, x2 < spreadEdgeState.grid_width →
        y2 < spreadEdgeState.grid_height → (x2, y2) ≠ (1, 0) →
        s'.get x2 y2 = spreadEdgeState.get x2 y2) ∧
      s'.update = spreadEdgeState.update ∧
      s'.grid_width = spreadEdgeState.grid_width ∧
      s'.grid_height = spreadEdgeState.grid_height ∧
      s'.particles_updated = spreadEdgeState.particles_updated :=
  c8_spawn_amended spreadEdgeState 1 0 .Sand ⟨[]⟩
    (WF_mk (by decide) (by decide) (by decide)) (by decide) (by decide)

/-- Counterexample to C4 as stated: a Water particle at x = 0 whose drawn
direction is right (raw draw 1 gives `random() = false`, so `dir = 1`) has
an Empty in-bounds target at (1,0), yet `apply_spread` fails because of the
source's unconditional `x > 0` guard. -/
theorem c4_counterexample :
    spreadEdgeState.apply_spread 0 0 ⟨[1]⟩ =
      some (false, spreadEdgeState, ⟨[]⟩) ∧
    (Rng.mk [1]).randomBool = (false, ⟨[]⟩) ∧
    spreadEdgeState.get 1 0 = some Particle.default ∧
    Particle.default.strain = .Empty := by
  refine ⟨by decide, by decide, by decide, by decide⟩

/-- C4 as amended: the spread primitive draws one random direction; the
attempt succeeds iff `x > 0`, the target column is inside the grid, and the
target cell is Empty — in particular a particle at `x = 0` can never
spread, not even rightwards into an Empty cell, because of the source's
unconditional `x > 0` guard; an out-of-range target is merely blocked,
never an error. -/
theorem c4_spread_amended : ∀ (s : FallingSand) (x y : Nat) (rng : Rng),
    s.WF → x < s.grid_width → y < s.grid_height →
    (((rng.randomBool).1 = true →
      (x = 0 →
        s.apply_spread x y rng = some (false, s, (rng.randomBool).2)) ∧
      (∀ q, 0 < x → s.get (x - 1) y = some q → q.strain ≠ .Empty →
        s.apply_spread x y rng = some (false, s, (rng.randomBool).2)) ∧
      (∀ p q, 0 < x → s.get x y = some p → s.get (x - 1) y = some q →
        q.strain = .Empty →
        ∃ s', s.apply_spread x y rng =
            some (true, s', (rng.randomBool).2) ∧
          s'.get x y = some q ∧ s'.get (x - 1) y = some p)) ∧
     ((rng.randomBool).1 = false →
      (x = 0 →
        s.apply_spread x y rng = some (false, s, (rng.randomBool).2)) ∧
      (¬(x + 1 < s.grid_width) →
        s.apply_spread x y rng = some (false, s, (rng.randomBool).2)) ∧
      (∀ q, 0 < x → x + 1 < s.grid_width → s.get (x + 1) y = some q →
        q.strain ≠ .Empty →
        s.apply_spread x y rng = some (false, s, (rng.randomBool).2)) ∧
      (∀ p q, 0 < x → x + 1 < s.grid_width → s.get x y = some p →
        s.get (x + 1) y = some q → q.strain = .Empty →
        ∃ s', s.apply_spread x y rng =
            some (true, s', (rng.randomBool).2) ∧
          s'.get x y = some q ∧ s'.get (x + 1) y = some p))) := by
  intro s x y rng hWF hx hy
  rcases hrb : rng.randomBool with ⟨c, rng1⟩
  constructor
  · intro hc
    have hc2 : c = true := hc
    subst hc2
    refine ⟨?_, ?_, ?_⟩
    · intro hx0
      subst hx0
      unfold FallingSand.apply_spread
      simp only [hrb, if_true, if_false, Bool.false_eq_true]
      rw [if_neg (by omega)]
      rfl
    · intro q hx0 hgq hne
      have hco : ((x : Int) + (-1)).toNat = x - 1 := by omega
      have hbq : (q.strain == Strain.Empty) = false := by
        simp [hne]
      unfold FallingSand.apply_spread
      simp only [hrb, if_true, if_false, Bool.false_eq_true]
      rw [if_pos ⟨hx0, by omega⟩, hco]
      unfold FallingSand.is_particle_empty
      rw [hgq]
      simp only [hbq]
      rfl
    · intro p q hx0 hgp hgq hqe
      have hco : ((x : Int) + (-1)).toNat = x - 1 := by omega
      have hbq : (q.strain == Strain.Empty) = true := by
        simp [hqe]
      obtain ⟨s', hsw⟩ := swap_isSome (index_lt hWF hx hy)
        (index_lt hWF (by omega : x - 1 < s.grid_width) hy)
      obtain ⟨hg1, hg2⟩ := swap_get hsw
      refine ⟨s', ?_, hg1.trans hgq, hg2.trans hgp⟩
      unfold FallingSand.apply_spread
      simp only [hrb, if_true, if_false, Bool.false_eq_true]
      rw [if_pos ⟨hx0, by omega⟩, hco]
      unfold FallingSand.is_particle_empty
      rw [hgq]
      simp only [hbq, if_true]
      rw [if_pos (by decide : (-1 : Int) ≠ 0), hco, hsw]
  · intro hc
    have hc2 : c = false := hc
    subst hc2
    refine ⟨?_, ?_, ?_, ?_⟩
    · intro hx0
      subst hx0
      unfold FallingSand.apply_spread
      simp only [hrb, if_true, if_false, Bool.false_eq_true]
      rw [if_neg (by omega)]
      rfl
    · intro hxe
      unfold FallingSand.apply_spread
      simp only [hrb, if_true, if_false, Bool.false_eq_true]
      rw [if_neg (by omega)]
      rfl
    · intro q hx0 hx1 hgq hne
      have hco : ((x : Int) + 1).toNat = x + 1 := by omega
      have hbq : (q.strain == Strain.Empty) = false := by
        simp [hne]
      unfold FallingSand.apply_spread
      simp only [hrb, if_true, if_false, Bool.false_eq_true]
      rw [if_pos ⟨hx0, by omega⟩, hco]
      unfold FallingSand.is_particle_empty
      rw [hgq]
      simp only [hbq]
      rfl
    · intro p q hx0 hx1 hgp hgq hqe
      have hco : ((x : Int) + 1).toNat = x + 1 := by omega
      have hbq : (q.strain == Strain.Empty) = true := by
        simp [hqe]
      obtain ⟨s', hsw⟩ := swap_isSome (index_lt hWF hx hy)
        (index_lt hWF hx1 hy)
      obtain ⟨hg1, hg2⟩ := swap_get hsw
      refine ⟨s', ?_, hg1.trans hgq, hg2.trans hgp⟩
      unfold FallingSand.apply_spread
      simp only [hrb, if_true, if_false, Bool.false_eq_true]
      rw [if_pos ⟨hx0, by omega⟩, hco]
      unfold FallingSand.is_particle_empty
      rw [hgq]
      simp only [hbq, if_true]
      rw [if_pos (by decide : (1 : Int) ≠ 0), hco, hsw]

/-- Witness for the amended C4: Water at (0,0) with the drawn direction
right is blocked (x = 0), exercising the first blocked case. -/
theorem c4_witness :
    spreadEdgeState.apply_spread 0 0 ⟨[1]⟩ =
      some (false, spreadEdgeState, ((Rng.mk [1]).randomBool).2) :=
  (((c4_spread_amended spreadEdgeState 0 0 ⟨[1]⟩
    (WF_mk (by decide) (by decide) (by decide)) (by decide)
    (by decide)).2 (by decide)).1 rfl)

/-- Counterexample to C2 as stated: in `deadFireState` the Fire cell's flag
equals the global parity and its strain is non-Empty, so the claim selects
it for processing and flips its flag; but its lifetime is 0, so the code
runs the decay branch instead: after the tick the cell holds Empty with an
unflipped flag and `particles_updated` is 0. -/
theorem c2_counterexample :
    deadFireState.tick ⟨[]⟩ = some (deadFireAfter, ⟨[]⟩) ∧
    deadFireState.get 0 0 = some (mkP .Fire false 0) ∧
    (mkP .Fire false 0).update = deadFireState.update ∧
    (mkP .Fire false 0).strain ≠ .Empty ∧
    deadFireAfter.get 0 0 = some (mkP .Empty false (-1)) ∧
    deadFireAfter.particles_updated = 0 := by
  refine ⟨by decide, by decide, by decide, by decide, by decide, by decide⟩

/-- C2 as amended: a cell is processed iff its flag equals the parity, its
strain is non-Empty AND its lifetime is not 0; on processing the flag is
flipped to the opposite parity before the reaction/movement physics runs;
a swap carries both cells' full particles (so the flipped flag travels with
the particle); and one tick flips the global parity exactly once. -/
theorem c2_eligibility_amended :
    (∀ (s : FallingSand) (rng : Rng) (x y : Nat) (p : Particle),
      s.get x y = some p → p.lifetime ≠ 0 →
      ¬(p.update = s.update ∧ p.strain ≠ .Empty) →
      s.stepCell rng x y = some (s, rng)) ∧
    (∀ (s : FallingSand) (rng : Rng) (x y : Nat) (p : Particle),
      s.WF → x < s.grid_width → y < s.grid_height →
      s.get x y = some p → p.lifetime ≠ 0 → p.update = s.update →
      p.strain ≠ .Empty →
      ∃ p3 rng1 s1,
        s.reactLoop x y (processedParticle p) rng
          (processedParticle p).strain.reactable_strains =
            some (p3, rng1) ∧
        p3.update = (!s.update) ∧ s.set x y p3 = some s1 ∧
        s.stepCell rng x y = Option.map
          (fun t => ({ t.1 with
            particles_updated := t.1.particles_updated + 1 }, t.2))
          (FallingSand.dispatch x y p3.strain s1 rng1)) ∧
    (∀ (s s' : FallingSand) (x1 y1 x2 y2 : Nat),
      s.swap x1 y1 x2 y2 = some s' →
      s'.get x2 y2 = s.get x1 y1 ∧ s'.get x1 y1 = s.get x2 y2) ∧
    (∀ (s s' : FallingSand) (rng rng' : Rng), s.WF →
      s.tick rng = some (s', rng') → s'.update = (!s.update)) := by
  refine ⟨?_, ?_, ?_, ?_⟩
  · intro s rng x y p hget hlt hcond
    exact stepCell_skip hget hlt hcond
  · intro s rng x y p hWF hx hy hget hlt hflag hne
    obtain ⟨p3, rng1, hrl, hu3, -⟩ := reactLoop_spec hWF (x := x) (y := y)
      (processedParticle p).strain.reactable_strains
      (processedParticle p) rng
    have hup : p3.update = !s.update := by
      rw [hu3, processedParticle_update, hflag]
    have hset := set_of_lt p3 (index_lt hWF hx hy)
    refine ⟨p3, rng1, _, hrl, hup, hset, ?_⟩
    unfold FallingSand.stepCell
    simp only [hget]
    rw [if_neg hlt, if_pos ⟨hflag, hne⟩]
    simp only [hrl]
    rw [hset]
    simp only []
    cases hd : FallingSand.dispatch x y p3.strain
        { s with grid := s.grid.set (s.index x y) p3 } rng1 with
    | none => simp [hd]
    | some t => simp [hd]
  · intro s s' x1 y1 x2 y2 hsw
    exact ⟨(swap_get hsw).2, (swap_get hsw).1⟩
  · intro s s' rng rng' hWF htk
    obtain ⟨s2, rng2, heq, -, -, -, hu, -, -, -⟩ := tick_frame hWF rng
    rw [htk] at heq
    simp only [Option.some.injEq, Prod.mk.injEq] at heq
    obtain ⟨rfl, -⟩ := heq
    exact hu

/-- Witness for the amended C2 at concrete inputs: a flag-mismatched cell
is skipped; a matching Sand cell is processed with its flag flipped before
dispatch; a concrete swap carries both particles; a tick flips parity. -/
theorem c2_witness :
    skipSandState.stepCell ⟨[]⟩ 0 0 = some (skipSandState, ⟨[]⟩) ∧
    (∃ p3 rng1 s1,
      oneSandState.reactLoop 0 0 (processedParticle (mkP .Sand false (-1)))
        ⟨[]⟩ (processedParticle (mkP .Sand false (-1))).strain.reactable_strains
          = some (p3, rng1) ∧
      p3.update = (!oneSandState.update) ∧
      oneSandState.set 0 0 p3 = some s1 ∧
      oneSandState.stepCell ⟨[]⟩ 0 0 = Option.map
        (fun t => ({ t.1 with
          particles_updated := t.1.particles_updated + 1 }, t.2))
        (FallingSand.dispatch 0 0 p3.strain s1 rng1)) ∧
    oneSandAfter.update = (!oneSandState.update) := by
  refine ⟨?_, ?_, ?_⟩
  · exact c2_eligibility_amended.1 skipSandState ⟨[]⟩ 0 0
      (mkP .Sand true (-1)) (by decide) (by decide) (by decide)
  · exact c2_eligibility_amended.2.1 oneSandState ⟨[]⟩ 0 0
      (mkP .Sand false (-1)) (WF_mk (by decide) (by decide) (by decide))
      (by decide) (by decide) (by decide) (by decide) (by decide) (by decide)
  · exact c2_eligibility_amended.2.2.2 oneSandState oneSandAfter ⟨[]⟩ ⟨[]⟩
      (WF_mk (by decide) (by decide) (by decide)) (by decide)

/-- Counterexample to C3 as stated: Sand at (0,0) with a Fire trigger at
(1,0); the raw draw stream [1,0] makes the reaction roll equal to the
chance (1). The source's `<=` comparison converts the cell to MoltenGlass,
while the claim's strict `<` (modelled by `reactionClaim`) leaves it Sand. -/
theorem c3_counterexample :
    sandFireState.reactLoop 0 0 (mkP .Sand true (-1)) ⟨[1, 0]⟩
      Strain.Sand.reactable_strains =
        some (mkP .MoltenGlass true 240, ⟨[]⟩) ∧
    reactionClaim sandFireState 0 0 (mkP .Sand true (-1)) ⟨[1, 0]⟩
      Strain.Sand.reactable_strains =
        some (mkP .Sand true (-1), ⟨[0]⟩) ∧
    (mkP .MoltenGlass true 240).strain ≠ (mkP .Sand true (-1)).strain := by
  refine ⟨by decide, by decide, by decide⟩

/-- C3 as amended: the reaction scan examines the neighbour offsets in the
fixed order left, right, up, down (`four_adj_particles`); a matching
neighbour rolls a draw and converts iff the draw is less than OR EQUAL to
the chance; a failed roll continues to the next neighbour with a fresh
draw (so a cell can draw more than once per tick); a successful conversion
breaks only the neighbour loop, but every material's table has at most one
entry, so at most one reaction per cell still holds. -/
theorem c3_reaction_amended :
    four_adj_particles = [(-1, 0), (1, 0), (0, -1), (0, 1)] ∧
    sandFireState.reactLoop 0 0 (mkP .Sand true (-1)) ⟨[1, 0]⟩
      Strain.Sand.reactable_strains =
        some (mkP .MoltenGlass true 240, ⟨[]⟩) ∧
    sandFireState.reactLoop 0 0 (mkP .Sand true (-1)) ⟨[2, 0]⟩
      Strain.Sand.reactable_strains =
        some (mkP .Sand true (-1), ⟨[0]⟩) ∧
    fireSandFireState.reactLoop 1 0 (mkP .Sand true (-1)) ⟨[0, 7]⟩
      Strain.Sand.reactable_strains =
        some (mkP .MoltenGlass true 247, ⟨[]⟩) ∧
    fireSandFireState.reactLoop 1 0 (mkP .Sand true (-1)) ⟨[2, 1, 0]⟩
      Strain.Sand.reactable_strains =
        some (mkP .MoltenGlass true 240, ⟨[]⟩) ∧
    (∀ st : Strain, (st.reactable_strains).length ≤ 1) := by
  refine ⟨by decide, by decide, by decide, by decide, by decide, ?_⟩
  intro st
  cases st <;> decide

/-- C5: over one tick the multiset of all cells' materials changes only by
replacements allowed by `StrainTrans` (decay to the death strain, a
reaction-table result, ignition of a non-Empty ignitable strain to Fire);
moreover no transformation creates a particle out of an Empty cell, so
particles neither vanish silently nor duplicate. -/
theorem c5_conservation : ∀ (s s' : FallingSand) (rng rng' : Rng), s.WF →
    s.tick rng = some (s', rng') →
    matsEvolve s.mats s'.mats ∧
    (∀ b, StrainTrans .Empty b → b = .Empty) := by
  intro s s' rng rng' hWF htk
  obtain ⟨s2, rng2, heq, -, -, -, -, -, hm, -⟩ := tick_frame hWF rng
  rw [htk] at heq
  simp only [Option.some.injEq, Prod.mk.injEq] at heq
  obtain ⟨rfl, -⟩ := heq
  refine ⟨hm, ?_⟩
  intro b htr
  cases htr with
  | decay => rfl
  | react b t c h => simp [Strain.reactable_strains] at h
  | ignite h1 h2 => exact absurd rfl h1

/-- Witness for C5: one tick of a 1×1 grid holding a single Sand
particle. -/
theorem c5_witness :
    matsEvolve oneSandState.mats oneSandAfter.mats ∧
    (∀ b, StrainTrans .Empty b → b = .Empty) :=
  c5_conservation oneSandState oneSandAfter ⟨[]⟩ ⟨[]⟩
    (WF_mk (by decide) (by decide) (by decide)) (by decide)

/-- Counterexample to C6 as stated: in the 1×4 column Sand/Sand/Water/Wood
the single Water particle (lifetime marker −5) is density-swapped upward by
the first sand's processing and then again by the second sand's
processing: it moves from row 2 to row 0 — two cells — within one tick,
so one particle was moved twice. -/
theorem c6_counterexample :
    doubleMoveState.tick ⟨[]⟩ = some (doubleMoveAfter, ⟨[]⟩) ∧
    doubleMoveState.get 0 2 = some (mkP .Water false (-5)) ∧
    doubleMoveAfter.get 0 0 = some (mkP .Water true (-5)) ∧
    (doubleMoveState.grid.map Particle.strain).count .Water = 1 ∧
    (doubleMoveAfter.grid.map Particle.strain).count .Water = 1 := by
  refine ⟨by decide, by decide, by decide, by decide, by decide⟩

/-- C6 as amended: within one tick no particle is PROCESSED more than once
— `particles_updated` equals exactly the number of cells whose flag changed
from the parity to its opposite, a flag-mismatched cell is skipped
untouched, and swaps carry both full particles (so a processed particle's
flipped flag travels with it); but a particle may be RELOCATED several
times in one tick by other cells' density swaps. -/
theorem c6_no_double_processing :
    (∀ (s s' : FallingSand) (rng rng' : Rng), s.WF →
      s.tick rng = some (s', rng') →
      s'.particles_updated + eligCount s.update s' =
        eligCount s.update s) ∧
    (∀ (s : FallingSand) (rng : Rng) (x y : Nat) (p : Particle),
      s.get x y = some p → p.lifetime ≠ 0 → p.update ≠ s.update →
      s.stepCell rng x y = some (s, rng)) ∧
    (∀ (s s' : FallingSand) (x1 y1 x2 y2 : Nat),
      s.swap x1 y1 x2 y2 = some s' →
      s'.get x1 y1 = s.get x2 y2 ∧ s'.get x2 y2 = s.get x1 y1) := by
  refine ⟨?_, ?_, ?_⟩
  · intro s s' rng rng' hWF htk
    obtain ⟨s2, rng2, heq, -, -, -, -, hsum, -, -⟩ := tick_frame hWF rng
    rw [htk] at heq
    simp only [Option.some.injEq, Prod.mk.injEq] at heq
    obtain ⟨rfl, -⟩ := heq
    exact hsum
  · intro s rng x y p hget hlt hflag
    exact stepCell_skip hget hlt (fun hcon => hflag hcon.1)
  · intro s s' x1 y1 x2 y2 hsw
    exact swap_get hsw

/-- Witness for the amended C6: the accounting identity on the
double-move column (4 processings, all four flags flipped) and a skipped
flag-mismatched cell. -/
theorem c6_witness :
    doubleMoveAfter.particles_updated +
        eligCount doubleMoveState.update doubleMoveAfter =
      eligCount doubleMoveState.update doubleMoveState ∧
    skipSandState.stepCell ⟨[]⟩ 0 0 = some (skipSandState, ⟨[]⟩) := by
  refine ⟨?_, ?_⟩
  · exact c6_no_double_processing.1 doubleMoveState doubleMoveAfter ⟨[]⟩
      ⟨[]⟩ (WF_mk (by decide) (by decide) (by decide)) (by decide)
  · exact c6_no_double_processing.2.1 skipSandState ⟨[]⟩ 0 0
      (mkP .Sand true (-1)) (by decide) (by decide) (by decide)

/-- One tick of the settled sand column: the material configuration is a
fixed point, every flag flips with the parity, no draw is consumed, and
`particles_updated` is 2 — one per settled Sand particle — not 0. -/
theorem settledSand_tick : ∀ (b : Bool) (c : Nat) (rng : Rng),
    (settledSand b c).tick rng = some (settledSand (!b) 2, rng) := by
  intro b c rng
  cases b
  · rfl
  · rfl

/-- Counterexample to C7 as stated: the settled column no longer changes
its material configuration, yet `particles_updated` is 2 after a further
tick, not 0 (settled particles are still processed every tick). -/
theorem c7_counterexample :
    (settledSand false 0).tick ⟨[]⟩ = some (settledSand true 2, ⟨[]⟩) ∧
    (settledSand true 2).grid.map Particle.strain =
      (settledSand false 0).grid.map Particle.strain ∧
    (settledSand true 2).particles_updated = 2 ∧
    (settledSand true 2).particles_updated ≠ 0 := by
  refine ⟨by decide, by decide, by decide, by decide⟩

/-- C7 as amended: a sand particle settled on a flat sand floor is at a
fixed point — after any number of further ticks the material configuration
is unchanged — but each of those ticks reports `particles_updated = 2`
(every settled non-Empty particle is still processed), never 0. -/
theorem c7_settling_amended : ∀ (n : Nat) (b : Bool) (c : Nat) (rng : Rng),
    ∃ b2, FallingSand.tickN (n + 1) (settledSand b c) rng =
      some (settledSand b2 2, rng) ∧
      (settledSand b2 2).grid.map Particle.strain =
        (settledSand b c).grid.map Particle.strain ∧
      (settledSand b2 2).particles_updated = 2 := by
  intro n
  induction n with
  | zero =>
    intro b c rng
    refine ⟨!b, ?_, rfl, rfl⟩
    show (match (settledSand b c).tick rng with
      | none => none
      | some (s', rng') => FallingSand.tickN 0 s' rng') =
        some (settledSand (!b) 2, rng)
    rw [settledSand_tick]
    rfl
  | succ n ih =>
    intro b c rng
    obtain ⟨b2, h1, h2, h3⟩ := ih (!b) 2 rng
    refine ⟨b2, ?_, ?_, h3⟩
    · show (match (settledSand b c).tick rng with
        | none => none
        | some (s', rng') => FallingSand.tickN (n + 1) s' rng') =
          some (settledSand b2 2, rng)
      rw [settledSand_tick]
      exact h1
    · exact h2.trans rfl

/-- C9: bounds safety — an out-of-bounds spawn is a silent no-op, and on a
well-formed state gravity, tumble, spread and spawn applied at any
in-bounds cell (edges included) never fault: every buffer access they make
is inside `[0, width*height)`, as `index x y < grid.length` states. -/
theorem c9_bounds_safety : ∀ (s : FallingSand) (x y : Nat) (p : Particle)
    (val : Int) (rng : Rng), s.WF →
    ((¬(x < s.grid_width ∧ y < s.grid_height) →
      s.spawn_particle x y p = some s) ∧
     (x < s.grid_width → y < s.grid_height →
      (∃ r, s.apply_gravity x y val = some r) ∧
      (∃ r, s.apply_tumble x y = some r) ∧
      (∃ r, s.apply_spread x y rng = some r) ∧
      (∃ s2, s.spawn_particle x y p = some s2) ∧
      s.index x y < s.grid.length)) := by
  intro s x y p val rng hWF
  refine ⟨fun h => spawn_oob h, fun hx hy =>
    ⟨gravity_isSome hWF hx hy val, tumble_isSome hWF hx hy,
      spread_isSome hWF hx hy rng, ⟨_, spawn_inb hWF hx hy p⟩,
      index_lt hWF hx hy⟩⟩

/-- Witness for C9 at concrete edge cells of a 2×1 grid: an out-of-bounds
spawn is a no-op, and the primitives succeed at the left edge. -/
theorem c9_witness :
    spreadEdgeState.spawn_particle 5 0 Particle.default =
      some spreadEdgeState ∧
    ((∃ r, spreadEdgeState.apply_gravity 0 0 1 = some r) ∧
     (∃ r, spreadEdgeState.apply_tumble 0 0 = some r) ∧
     (∃ r, spreadEdgeState.apply_spread 0 0 ⟨[]⟩ = some r) ∧
     (∃ s2, spreadEdgeState.spawn_particle 0 0 Particle.default = some s2) ∧
     spreadEdgeState.index 0 0 < spreadEdgeState.grid.length) := by
  refine ⟨?_, ?_⟩
  · exact (c9_bounds_safety spreadEdgeState 5 0 Particle.default 1 ⟨[]⟩
      (WF_mk (by decide) (by decide) (by decide))).1 (by decide)
  · exact (c9_bounds_safety spreadEdgeState 0 0 Particle.default 1 ⟨[]⟩
      (WF_mk (by decide) (by decide) (by decide))).2 (by decide) (by decide)
